import Mathlib

/-!
Shallow embedding of the two dataset generators of the FNB-Imagery-AI-Tool
repository: `profile_generation.py` (namespace `Profile`) and
`task_request_generation.py` (namespace `TaskReq`).

Modelling conventions:
* Python's process-wide `random` module is modelled as an explicit stream of
  natural-number draws (`RandState`); every call that consumes randomness
  advances the stream by exactly the number of draws the Python code makes,
  in the same order.
* `uuid.uuid4()` draws entropy from the operating system, not from the
  `random` module, so it is modelled as a second, independent stream
  (`UuidState`).
* `random.random()` (a uniform float in `[0,1)`) is modelled as an exact
  rational with a fixed denominator of 10^6 (built with `mkRat`, which keeps
  concrete runs kernel-computable); all probability thresholds of the source
  (0.1, 0.2, 0.3, 0.5, 0.6, 0.7) are written as the exact rationals
  `mkRat 1 10` and so on, so every branch of the source is reachable and
  branch decisions are exact.
* `random.randint a b` (inclusive) is modelled as `a + draw % (b + 1 - a)`;
  both sources only call it with `a ≤ b`.
* `random.uniform(8.0, 75.0)` followed by `:.2f` formatting is modelled at
  cent precision: a draw of an integer number of cents in `[800, 7500]`,
  rendered with exactly two decimal digits.
* Python dicts built by inserting fresh keys in a fixed order are modelled
  as association lists in insertion order (`Ctx`); lookups use the first
  matching key, which coincides with dict semantics because every record's
  keys are pairwise distinct (proved below for the concrete schemas).
-/

/-- One entry of a simulated `structured_list` value (a menu item dict with
keys "Item Name", "Price", "Brief Description"). -/
structure MenuItem where
  itemName : String
  price : String
  briefDescription : Option String
deriving Repr, DecidableEq

/-- The values a simulated record can hold (besides Python `None`, which is
modelled as `Option.none` around `Value`). -/
inductive Value where
  | str (s : String)
  | list (l : List String)
  | bool (b : Bool)
  | items (l : List MenuItem)
deriving Repr, DecidableEq

/-- A record / answer context: field id to optional value, in insertion
order. -/
abbrev Ctx := List (String × Option Value)

/-- The state of Python's process-wide `random` module: an infinite stream of
raw draws and a position. -/
structure RandState where
  stream : Nat → Nat
  pos : Nat

/-- The current raw draw. -/
def RandState.d (r : RandState) : Nat := r.stream r.pos

/-- Consume one draw. -/
def RandState.adv (r : RandState) : RandState := ⟨r.stream, r.pos + 1⟩

/-- The state of the operating-system entropy used by `uuid.uuid4()`,
independent of the `random` module. -/
structure UuidState where
  stream : Nat → Nat
  pos : Nat

/-- The current raw uuid draw. -/
def UuidState.d (u : UuidState) : Nat := u.stream u.pos

/-- Consume one uuid draw. -/
def UuidState.adv (u : UuidState) : UuidState := ⟨u.stream, u.pos + 1⟩

/-- `random.random()`: a uniform rational in `[0,1)` at 10^-6 resolution. -/
def unitP (r : RandState) : ℚ × RandState :=
  (mkRat (Int.ofNat (r.d % 1000000)) 1000000, r.adv)

/-- `random.randint a b` (both ends inclusive); the sources only call it with
`a ≤ b`. -/
def randintP (a b : Nat) (r : RandState) : Nat × RandState :=
  (a + r.d % (b + 1 - a), r.adv)

/-- `random.choice l` for a non-empty list `l`; the default is never used at
call sites, which all guard non-emptiness. -/
def choicePD {α : Type} (l : List α) (dflt : α) (r : RandState) : α × RandState :=
  (l.getD (r.d % l.length) dflt, r.adv)

/-- `random.choice` on string lists. -/
def choiceP (l : List String) (r : RandState) : String × RandState :=
  choicePD l "" r

/-- `random.sample l k`: `k` positions drawn without replacement; callers
guard `k ≤ l.length`, and on an exhausted pool the model returns what it
has. -/
def sampleP : List String → Nat → RandState → List String × RandState
  | _, 0, r => ([], r)
  | l, k + 1, r =>
    if l.isEmpty then ([], r)
    else
      let i := r.d % l.length
      let rest := sampleP (l.eraseIdx i) k r.adv
      (l.getD i "" :: rest.1, rest.2)

/-- Lower-case hexadecimal digit. -/
def hexChar (n : Nat) : Char :=
  if n < 10 then Char.ofNat (48 + n) else Char.ofNat (87 + n)

/-- `n` rendered as exactly `k` lower-case hex digits (zero-padded); used for
uuid prefixes and `%06x` colour formatting. -/
def hexPad (k n : Nat) : String :=
  ((List.range k).map (fun i => hexChar (n / 16 ^ (k - 1 - i) % 16))).asString

/-- `uuid.uuid4().hex[:k]`: `k` lower-case hex digits from the uuid entropy
stream. -/
def uuidHexP (k : Nat) (u : UuidState) : String × UuidState :=
  (hexPad k (u.d % 16 ^ k), u.adv)

namespace Profile

/-- One entry of `FORM_STRUCTURE`. Keys absent from the Python dict are
`none` / the documented defaults (`optional_chance` defaults to 1.0 via
`question.get("optional_chance", 1.0)`). -/
structure Question where
  id : String
  qtype : String
  options : List String
  condition : Option (String × String × Value)
  max_select : Option Nat
  num_colors : Option (Nat × Nat)
  optional_chance : ℚ

/-- Template question carrying the defaults; the schema below overrides the
keys each Python dict literal actually has. -/
def Q0 : Question := ⟨"", "", [], none, none, none, 1⟩

def RESTAURANT_CAFE_TYPES : List String := [
  "Casual Dining Restaurant", "Fine Dining Restaurant",
  "Quick Service Restaurant (QSR) / Fast Food",
  "Cafe / Coffee Shop / Kopitiam", "Ghost Kitchen / Cloud Kitchen / Virtual Brand",
  "Food Truck / Stall / Hawker Stall", "Catering Service (Events, Corporate)"]

def BAKERY_TYPES : List String := ["Bakery / Patisserie"]

def FOOD_TRUCK_TYPES : List String := ["Food Truck / Stall / Hawker Stall"]

def CATERING_TYPES : List String := ["Catering Service (Events, Corporate)"]

def BAR_TYPES : List String := ["Bar / Pub / Lounge"]

def CUISINE_OPTIONS_FLAT : List String := [
  "Malay", "Chinese Malaysian", "Indian Malaysian (Mamak)", "Nyonya/Peranakan",
  "Borneo Native (Specify)", "Other Malaysian Regional",
  "Japanese", "Korean", "Thai", "Vietnamese", "Indonesian", "Filipino",
  "Chinese (Regional/General)", "Indian (Regional/General)", "Middle Eastern",
  "Other Asian (Specify)",
  "Italian", "French", "Spanish", "American (General/Burgers/Steak)",
  "British/Irish", "Other European (Specify)",
  "Mexican/Latin American", "African (Specify Region)", "Caribbean",
  "Fusion", "Gastropub", "Seafood", "Pizzeria", "Sandwiches/Deli",
  "Noodles/Rice Bowls", "Tapas/Small Plates", "Breakfast/Brunch Focus",
  "Healthy/Salads", "Plant-Based/Vegan", "Vegetarian",
  "Halal Certified/Muslim-Friendly", "Gluten-Free Focus", "Other"]

def SERVICE_OPTIONS_FLAT : List String := [
  "Dine-in (Reservations Recommended/Required)", "Dine-in (Walk-ins Welcome)",
  "Takeaway/Self-Pickup (\x27Tapau\x27)", "Curbside Pickup",
  "In-House Delivery", "Third-Party Delivery Platforms", "Drive-Thru",
  "Counter Service", "Table Service", "Online Ordering (via Website/App/Social Media)"]

def BAKERY_GOODS_FLAT : List String := [
  "Artisan Bread", "Local Breads (e.g., Roti)", "Pastries (Viennoiserie/Puffs)",
  "Cakes (Custom/Celebration)", "Local Kuih/Sweets",
  "Cupcakes", "Cookies/Biscuits", "Desserts (Plated/Individual)",
  "Savory Items (Pies, Quiches, Puffs)", "Gluten-Free Options", "Vegan Options",
  "Coffee/Tea/Beverages", "Other"]

def BAKERY_SELLING_FLAT : List String := [
  "Retail Storefront", "Online Orders (Local Delivery)",
  "Online Orders (Domestic/International Shipping)", "Wholesale (to other businesses)",
  "Markets/Pop-ups (Pasar Malam/Pagi)", "Catering/Events"]

def FOOD_TRUCK_LOCATIONS_FLAT : List String := [
  "Fixed Hawker Centre Stall", "Roadside Stall (Regular Location)",
  "Mobile Truck (Rotating Locations)", "Office Parks/Commercial Areas",
  "Events/Festivals/Carnivals", "Markets (Pasar Malam/Pagi)",
  "Private Catering/Functions"]

def CATERING_EVENTS_FLAT : List String := [
  "Corporate Events/Meetings", "Weddings/Engagements",
  "Private Parties (Birthdays, Anniversaries)", "Religious/Cultural Functions",
  "Social Gatherings", "Festivals/Public Events", "Institutional (Schools, Hospitals)",
  "Drop-off Catering/Packed Meals", "Full-Service Catering"]

def BAR_OFFERINGS_FLAT : List String := [
  "Beer Selection (Local/Import/Craft)", "Wine List", "Signature/Craft Cocktails",
  "Spirits Selection (Whiskey, Gin etc.)", "Non-Alcoholic Specialties/Mocktails",
  "Bar Snacks/Small Plates (\x27Cicchetti\x27)", "Full Food Menu",
  "Live Music/Bands/DJs", "Sports Screening", "Games (Pool, Darts)",
  "Quiz Nights/Events", "Specific Theme/Atmosphere", "Other"]

def AUDIENCE_OPTIONS_FLAT : List String := [
  "Families with Children", "Young Adults (18-30)",
  "Professionals/Office Workers (30-55)", "Seniors (55+)",
  "Students (University/College)",
  "Tourists/Visitors (International/Domestic)", "Local Residents/Community",
  "Budget-Conscious Consumers", "Affluent Consumers",
  "Health-Conscious/Wellness Focused",
  "Eco-Conscious Consumers", "Foodies/Adventurous Eaters", "Expatriates",
  "Specific Dietary Needs (Vegan, GF, Halal, etc.)", "Business/Corporate Clients",
  "Event Planners", "Other"]

def MARKETING_GOALS_FLAT : List String := [
  "Increase Social Media Likes/Follows/Shares",
  "Encourage User-Generated Content/Reviews", "Build Online Community/Group",
  "Drive Foot Traffic/Reservations", "Increase Online Orders/Delivery",
  "Promote Specific Menu Items/Products",
  "Boost Sales During Off-Peak Hours/Specific Days",
  "Build General Brand Awareness", "Launch New Location/Product/Menu",
  "Announce Events/Promotions/Offers", "Highlight Unique Selling Points",
  "Promote Loyalty Program/Membership", "Attract Repeat Customers",
  "Share updates via WhatsApp Business / Social Media Stories", "Other"]

def PRIMARY_STYLE_OPTIONS_FLAT : List String := [
  "Modern/Contemporary", "Rustic/Natural", "Vintage/Retro", "Minimalist/Clean",
  "Cozy/Comfortable (\x27LePak\x27)", "Elegant/Sophisticated",
  "Casual/Relaxed", "Playful/Quirky", "Industrial", "Luxe/Opulent", "Tropical",
  "Heritage/Traditional",
  "Vibrant/Bold/Energetic", "Muted/Subtle/Calm", "Dark/Moody", "Light/Airy",
  "Classic", "Whimsical/Creative", "Nostalgic", "Other"]

def SECONDARY_STYLE_OPTIONS_FLAT : List String :=
  PRIMARY_STYLE_OPTIONS_FLAT ++ [
  "Instagrammable/Photo-worthy", "Family-Friendly", "Romantic", "Tech-Integrated",
  "Community-Focused", "Sustainable/Eco-Friendly", "Artsy/Cultural",
  "Wabi-Sabi (Imperfect Beauty)"]

def IMAGERY_NEEDS_FLAT : List String := [
  "High-Quality Dish Photography (Styled)", "Close-up/Detail Shots (\x27Food Porn\x27)",
  "Menu Item Features", "Beverage Photography", "Ingredient Shots/Preparation Process",
  "Interior/Ambiance Photos (Day/Night)", "Exterior/Facade Photos", "Lifestyle Shots",
  "Behind-the-Scenes/Staff/Chef Action Shots",
  "Images for Social Media Posts", "Website Banners/Heroes", "Email Marketing Visuals",
  "Online Ad Creatives", "Print Menu Design Elements", "Event Promotion Visuals",
  "User-Generated Content Campaign Starters"]

/-- The simulated onboarding form: `FORM_STRUCTURE` of
`profile_generation.py`. -/
def FORM_STRUCTURE : List Question := [
  { Q0 with
      id := "q1", qtype := "dropdown", options := [
      "Cafe / Coffee Shop / Kopitiam", "Casual Dining Restaurant",
      "Fine Dining Restaurant", "Quick Service Restaurant (QSR) / Fast Food",
      "Bakery / Patisserie", "Food Truck / Stall / Hawker Stall",
      "Catering Service (Events, Corporate)", "Bar / Pub / Lounge",
      "Ghost Kitchen / Cloud Kitchen / Virtual Brand",
      "Specialty Food Shop (e.g., Grocer, Butcher, Deli)",
      "Meal Kit / Subscription Box Service",
      "Beverage Producer / Shop (e.g., Juice Bar, Bubble Tea, Brewery)", "Other"] },
  { Q0 with
      id := "q1a", qtype := "text",
      condition := some ("q1", "==", Value.str "Other") },
  { Q0 with
      id := "q2", qtype := "radio", options := [
      "Micro (1-5 employees / Single Owner-Operator)",
      "Small (6-20 employees / Single Location)",
      "Medium (21-100 employees / Few Locations)",
      "Large (101+ employees / Multi-location / Chain)"] },
  { Q0 with
      id := "q3", qtype := "text" },
  { Q0 with
      id := "q4a", qtype := "checkbox", options := CUISINE_OPTIONS_FLAT,
      max_select := some 5,
      condition := some ("q1", "in", Value.list RESTAURANT_CAFE_TYPES) },
  { Q0 with
      id := "q4b", qtype := "checkbox", options := SERVICE_OPTIONS_FLAT,
      max_select := some 4,
      condition := some ("q1", "in", Value.list RESTAURANT_CAFE_TYPES) },
  { Q0 with
      id := "q4c", qtype := "checkbox", options := BAKERY_GOODS_FLAT,
      max_select := some 5,
      condition := some ("q1", "in", Value.list BAKERY_TYPES) },
  { Q0 with
      id := "q4d", qtype := "checkbox", options := BAKERY_SELLING_FLAT,
      max_select := some 3,
      condition := some ("q1", "in", Value.list BAKERY_TYPES) },
  { Q0 with
      id := "q4e", qtype := "checkbox", options := FOOD_TRUCK_LOCATIONS_FLAT,
      max_select := some 3,
      condition := some ("q1", "in", Value.list FOOD_TRUCK_TYPES) },
  { Q0 with
      id := "q4f", qtype := "checkbox", options := CATERING_EVENTS_FLAT,
      max_select := some 4,
      condition := some ("q1", "in", Value.list CATERING_TYPES) },
  { Q0 with
      id := "q4g", qtype := "checkbox", options := BAR_OFFERINGS_FLAT,
      max_select := some 5,
      condition := some ("q1", "in", Value.list BAR_TYPES) },
  { Q0 with
      id := "q5", qtype := "checkbox", options := AUDIENCE_OPTIONS_FLAT,
      max_select := some 4 },
  { Q0 with
      id := "q6", qtype := "checkbox", options := MARKETING_GOALS_FLAT,
      max_select := some 5 },
  { Q0 with
      id := "q7", qtype := "file_upload" },
  { Q0 with
      id := "q8", qtype := "color_picker", num_colors := some (2, 4) },
  { Q0 with
      id := "q9", qtype := "radio", options := PRIMARY_STYLE_OPTIONS_FLAT },
  { Q0 with
      id := "q9a", qtype := "checkbox", options := SECONDARY_STYLE_OPTIONS_FLAT,
      max_select := some 3 },
  { Q0 with
      id := "q10", qtype := "checkbox", options := IMAGERY_NEEDS_FLAT,
      max_select := some 5, optional_chance := mkRat 7 10 },
  { Q0 with
      id := "q11", qtype := "file_upload", optional_chance := mkRat 3 10 },
  { Q0 with
      id := "q12", qtype := "file_upload", optional_chance := mkRat 2 10 },
  { Q0 with
      id := "q13", qtype := "text_area", optional_chance := mkRat 5 10 }]

/-- Python membership `response_value in vs` for a list of strings `vs`:
only a string answer can be a member. -/
def pyStrIn (v : Value) (vs : List String) : Bool :=
  match v with
  | .str s => vs.contains s
  | _ => false

/-- Membership when the comparison value is a Python sequence
(`isinstance(value, (list, tuple, set))`); `none` when it is not a sequence.
A comparison value that is a list of structured items is a Python list, but
no record value is a dict, so membership in it is always false. -/
def seqMem (response_value value : Value) : Option Bool :=
  match value with
  | .list vs => some (pyStrIn response_value vs)
  | .items _ => some false
  | _ => none

/-- `evaluate_condition` of `profile_generation.py` (lines 144-192).
The `except` arm of the source is dead in this model: tuple unpacking and
the comparisons cannot raise on the modelled value types. -/
def evaluate_condition (condition : Option (String × String × Value))
    (current_response : Ctx) : Bool :=
  match condition with
  | none => true
  | some (q_id, operator, value) =>
    match current_response.lookup q_id with
    | none => false
    | some none => false
    | some (some response_value) =>
      if operator = "==" then decide (response_value = value)
      else if operator = "!=" then decide (response_value ≠ value)
      else if operator = "in" then (seqMem response_value value).getD false
      else if operator = "not in" then
        match seqMem response_value value with
        | some b => !b
        | none => false
      else false

def locationStates : List String :=
  ["Selangor", "Kuala Lumpur", "Penang", "Johor", "Sabah", "Sarawak", "Melaka", "Perak"]

def locationCities : List String :=
  ["Petaling Jaya", "George Town", "Johor Bahru", "Kota Kinabalu", "Kuching",
   "Subang Jaya", "Ipoh", "Shah Alam", "Melaka City"]

/-- `simulate_text_input` (lines 195-208). -/
def simulate_text_input (question_id : String) (r : RandState) (u : UuidState) :
    String × RandState × UuidState :=
  if question_id = "q1a" then
    let c := choiceP ["Events Space", "Cookery School", "Food Consultancy"] r
    ("Other Business Type - " ++ c.1, c.2, u)
  else if question_id = "q3" then
    let st := choiceP locationStates r
    let city := choiceP locationCities st.2
    (city.1 ++ ", " ++ st.1 ++ ", Malaysia", city.2, u)
  else if question_id.endsWith "a" && question_id.length = 3 then
    let c := choiceP ["Details A", "Details B", "Details C"] r
    ("Other specified - " ++ c.1, c.2, u)
  else
    let h := uuidHexP 6 u
    ("Simulated Text " ++ h.1, r, h.2)

def textAreaPhrases : List String := [
  "Focus on natural lighting.", "Highlight local ingredients.",
  "Must show Halal logo clearly.",
  "Avoid overly cluttered images.", "Prefer candid shots of customers.",
  "Showcase our unique packaging.",
  "Emphasize vibrant colors.", "Needs images suitable for Instagram Reels.",
  "No photos of alcohol.",
  "Modern minimalist aesthetic preferred.",
  "Include shots of the coffee making process."]

/-- `simulate_text_area` (lines 210-221): a 0.1 chance of an explicitly empty
answer, otherwise a phrase with a uuid suffix. -/
def simulate_text_area (_question_id : String) (r : RandState) (u : UuidState) :
    String × RandState × UuidState :=
  let x := unitP r
  if x.1 < mkRat 1 10 then ("", x.2, u)
  else
    let p := choiceP textAreaPhrases x.2
    let h := uuidHexP 4 u
    (p.1 ++ " (Simulated Guideline " ++ h.1 ++ ")", p.2, h.2)

/-- `simulate_file_upload` (lines 224-229). -/
def simulate_file_upload (question_id : String) (r : RandState) (u : UuidState) :
    String × RandState × UuidState :=
  let pfx := if question_id = "q7" then "logo" else "image_example"
  let ext := choiceP ["png", "jpg", "jpeg", "svg", "webp"] r
  let h := uuidHexP 8 u
  (pfx ++ "_sim_" ++ h.1 ++ "." ++ ext.1, ext.2, h.2)

/-- The colour loop of `simulate_color_picker`: `num` hex colour strings. -/
def colorList : Nat → RandState → List String × RandState
  | 0, r => ([], r)
  | n + 1, r =>
    let c := randintP 0 16777215 r
    let rest := colorList n c.2
    (("#" ++ hexPad 6 c.1) :: rest.1, rest.2)

/-- `simulate_color_picker` (lines 231-239). -/
def simulate_color_picker (num_range : Nat × Nat) (r : RandState) :
    List String × RandState :=
  let n := randintP num_range.1 num_range.2 r
  colorList n.1 n.2

/-- The answer simulation of one shown question: the `try` body of
`generate_profile` (lines 278-331). Every branch of the source assigns a
value, so the result is a total `Value`; the `except` arm is dead in the
model because no modelled operation raises. The source also records an
`answered_other` flag here; it is write-only and does not affect the
returned profile, so it is not modelled. -/
def simulateAnswer (question : Question) (r : RandState) (u : UuidState) :
    Value × RandState × UuidState :=
  let q_type := question.qtype
  let options := question.options
  if q_type = "dropdown" ∨ q_type = "radio" then
    if options.isEmpty then (Value.str "Error: No Options Defined", r, u)
    else
      let c := choiceP options r
      (Value.str c.1, c.2, u)
  else if q_type = "checkbox" then
    if options.isEmpty then (Value.list [], r, u)
    else
      let max_s := question.max_select.getD options.length
      let min_k := if 0 < options.length ∧ 0 < max_s then 1 else 0
      let upper_bound := min max_s options.length
      if min_k ≤ upper_bound then
        let kd := randintP min_k upper_bound r
        if 0 < kd.1 then
          let s := sampleP options kd.1 kd.2
          (Value.list s.1, s.2, u)
        else (Value.list [], kd.2, u)
      else (Value.list [], r, u)
  else if q_type = "text" then
    let t := simulate_text_input question.id r u
    (Value.str t.1, t.2)
  else if q_type = "text_area" then
    let t := simulate_text_area question.id r u
    (Value.str t.1, t.2)
  else if q_type = "file_upload" then
    let t := simulate_file_upload question.id r u
    (Value.str t.1, t.2)
  else if q_type = "color_picker" then
    let num_range := question.num_colors.getD (1, 1)
    let t := simulate_color_picker num_range r
    (Value.list t.1, t.2, u)
  else
    (Value.str ("Error: Unknown Type \x27" ++ q_type ++ "\x27"), r, u)

/-- The body of the `for question in structure` loop of `generate_profile`
(lines 260-334) for one question, returning the stored value (`none` when
the question is skipped) and the advanced streams. -/
def stepOut (question : Question) (profile_data : Ctx) (r : RandState)
    (u : UuidState) : Option Value × RandState × UuidState :=
  if evaluate_condition question.condition profile_data then
    if question.optional_chance < 1 then
      let x := unitP r
      if question.optional_chance < x.1 then (none, x.2, u)
      else
        let a := simulateAnswer question x.2 u
        (some a.1, a.2)
    else
      let a := simulateAnswer question r u
      (some a.1, a.2)
  else (none, r, u)

/-- The `for` loop of `generate_profile` over a list of questions, starting
from an accumulated context. -/
def profileAux : List Question → Ctx → RandState → UuidState →
    Ctx × RandState × UuidState
  | [], c, r, u => (c, r, u)
  | q :: qs, c, r, u =>
    let s := stepOut q c r u
    profileAux qs (c ++ [(q.id, s.1)]) s.2.1 s.2.2

/-- `generate_profile` (lines 243-337): one simulated profile. -/
def generate_profile (struc : List Question) (r : RandState) (u : UuidState) :
    Ctx × RandState × UuidState :=
  profileAux struc [] r u

/-- The generation loop of `generate_simulation_dataset`, producing records
in order. -/
def datasetLoop : Nat → RandState → UuidState → List Ctx × RandState × UuidState
  | 0, r, u => ([], r, u)
  | n + 1, r, u =>
    let p := generate_profile FORM_STRUCTURE r u
    let rest := datasetLoop n p.2.1 p.2.2
    (p.1 :: rest.1, rest.2)

/-- `generate_simulation_dataset` (lines 341-415): `n` profiles, or the empty
list when `n < 1`. The argument is an integer, so the source's
`isinstance(n, int)` guard is always satisfied. -/
def generate_simulation_dataset (n : Int) (r : RandState) (u : UuidState) :
    List Ctx × RandState × UuidState :=
  if n < 1 then ([], r, u)
  else datasetLoop n.toNat r u

end Profile

namespace TaskReq

def OPTIONAL_FIELD_CHANCE : ℚ := mkRat 6 10

def REFERENCE_IMAGE_CHANCE : ℚ := mkRat 3 10

def ADDITIONAL_INSTRUCTIONS_CHANCE : ℚ := mkRat 5 10

def MENU_ITEM_DESCRIPTION_CHANCE : ℚ := mkRat 6 10

/-- `CURATED_SNIPPETS` of `task_request_generation.py` as a total function;
a key outside the dict maps to `[]`, matching the `key in CURATED_SNIPPETS`
guard of `get_random_snippet`. -/
def CURATED_SNIPPETS (key : String) : List String :=
  if key = "product_features" then [
    "crispy golden texture", "freshly baked daily", "locally sourced organic ingredients",
    "vibrant natural colors", "generous family-sized portion", "our secret signature sauce",
    "artisan hand-crafted quality",
    "healthy and light option", "classic comfort food style", "perfectly cooked medium-rare",
    "unique umami flavor profile",
    "stone-baked crust", "rich chocolate ganache", "seasonal fruits"]
  else if key = "presentation_styles_prod" then [
    "Plated beautifully, top-down view", "Angled shot showing layers",
    "Close-up macro texture shot",
    "Held in hand to show scale", "Action shot: pouring syrup",
    "Served in original packaging",
    "Overhead flat lay with props", "Dynamic 3/4 view", "Deconstructed plating",
    "Rustic family-style platter"]
  else if key = "background_settings_prod" then [
    "Simple neutral gradient background", "Clean studio white backdrop",
    "On a rustic dark wood table",
    "Against a marble countertop", "Blurred cafe background context",
    "Using brand colors subtly",
    "Textured linen surface", "Outdoor picnic setting", "Slate serving board",
    "Minimalist concrete surface"]
  else if key = "props_prod" then [
    "vintage cutlery", "patterned napkin", "fresh herbs garnish", "subtle steam effect",
    "scattered coffee beans", "a slice cut out", "complementary drink", "chopping board",
    "small dipping bowl", "branded coaster", "single flower vase"]
  else if key = "lifestyle_scenes" then [
    "Friends laughing together sharing pizza outdoors at sunset.",
    "A person working on a laptop enjoying a detailed latte art coffee in a bright, modern cafe.",
    "A couple having a romantic candlelit dinner with wine glasses.",
    "Family gathered around a table for a noisy, happy weekend brunch.",
    "Someone relaxing on a sofa at home watching TV with takeaway noodles.",
    "Students studying intensely together surrounded by snacks and books.",
    "A close-up of hands holding a warm, steaming mug on a cold day.",
    "Busy lunchtime crowd atmosphere with blurred motion.",
    "Outdoor picnic scene on a sunny day with a checkered blanket.",
    "Colleagues having a quick coffee meeting during a break."]
  else if key = "lifestyle_moods" then [
    "Cozy, relaxed, and warm atmosphere", "Bright, energetic, and vibrant feel",
    "Romantic, intimate, low light",
    "Busy, social, and lively setting", "Professional and clean business lunch vibe",
    "Fun, playful, and casual mood",
    "Aspirational, luxurious, and elegant", "Calm and serene morning light",
    "Nostalgic and vintage feel", "Exciting and adventurous"]
  else if key = "promo_visual_ideas" then [
    "Focus on the discounted product itself, looking irresistible.",
    "Use abstract geometric graphics incorporating brand colors.",
    "Create festive illustrations matching the specific holiday (e.g., Raya, Christmas).",
    "Show diverse happy customers enjoying the offer.",
    "Clean graphic design emphasizing the bold text offer.",
    "Use high-energy action shots related to the product.",
    "Minimalist design with elegant typography for the promotion.",
    "A flat lay including the product and related items."]
  else if key = "branding_themes" then [
    "Freshness and natural ingredients", "Community and togetherness",
    "Modern luxury and elegance",
    "Speed and convenience", "Tradition and heritage", "Fun and playful energy",
    "Sustainability and eco-conscious",
    "Authenticity and craftsmanship", "Innovation and fusion"]
  else if key = "location_features" then [
    "cozy fireplace", "large sunny windows", "comfortable booth seating",
    "unique wall art mural",
    "lush green indoor plants", "view of the city skyline",
    "well-stocked polished bar display", "outdoor patio heaters and fairy lights",
    "exposed brick walls with industrial pipes", "modern minimalist light fixtures",
    "traditional batik fabric accents"]
  else if key = "event_highlights" then [
    "Live performance by [Artist Name]",
    "Exclusive multi-course tasting menu by Chef [Chef\x27s Name]",
    "Hands-on cooking/baking workshop - limited spots!",
    "Special festive decorations and limited-edition menu",
    "Meet the guest chef/bartender from [Place]",
    "Portion of proceeds go to [Charity Name]",
    "Celebrate our [Number] anniversary with us!",
    "Featuring new seasonal cocktails and mocktails",
    "Family fun day with activities for kids"]
  else if key = "bts_activities" then [
    "Chef carefully plating a signature dish with tweezers.",
    "Barista creating intricate multi-layered latte art.",
    "Baker kneading dough early in the morning light.",
    "Staff collaborating smoothly during a busy dinner service.",
    "Close-up of fresh, high-quality local ingredients being prepped.",
    "Serving a smiling regular customer by name.",
    "The organized chaos and energy of the kitchen line.",
    "Decorating intricate cakes/pastries with precision.",
    "Receiving fresh produce delivery from a local farm."]
  else if key = "bts_feel" then [
    "Authentic, candid, unposed moment capturing real work.",
    "Clean, professional, and highly organized workspace.",
    "Artistic shot focusing on the details and textures of the craft.",
    "Energetic, fast-paced kitchen action with motion blur.",
    "Passionate focus of a staff member dedicated to their task.",
    "Showcasing teamwork, communication, and camaraderie.",
    "Highlighting the quality and freshness of ingredients."]
  else if key = "ref_image_instructions" then [
    "Match the overall style and mood.", "Use this composition as a reference.",
    "Recreate this scene but with our specific product: [PRODUCT].",
    "Adopt the lighting technique shown here.", "Use similar colors and textures.",
    "Create a graphic layout inspired by this.",
    "Improve the quality of this photo while keeping the subject.",
    "Draw inspiration from this image\x27s energy.",
    "Keep the background, change the foreground subject.",
    "Use this image for style guidance only.",
    "Extract the color palette from this image.",
    "Make my product look as appetizing as the one in this reference."]
  else if key = "additional_instructions" then [
    "Ensure the final image is photorealistic, 8k resolution.",
    "Use a 16:9 aspect ratio for website banner.",
    "No people should be visible in the shot.",
    "Include subtle motion blur for dynamism.",
    "Make the main subject slightly off-center using rule of thirds.",
    "Avoid using the color blue entirely.",
    "Add a slight vignette effect to draw focus.",
    "The image needs ample negative space for text overlay.",
    "Focus on creating a warm, inviting, and cozy feeling.",
    "Keep the composition minimal and clean.",
    "--no text, --no watermark", "Use a shallow depth of field.", "--style raw"]
  else []

def TASK_CATEGORIES : List String := [
  "Product Shot", "Menu Display", "Lifestyle Shot", "Promotional Graphic",
  "Branding Element", "Location/Ambiance Shot", "Event Promotion", "Behind-the-Scenes"]

/-- One entry of a `TASK_FIELDS` / `COMMON_REFINEMENT_FIELDS` field dict.
Absent keys are `none` / the `dict.get` defaults (`required` defaults to
`False`). `max_tags` appears in the source dicts but is never read by the
simulation code (which reads `max_select`); it is kept to mirror the data. -/
structure TField where
  id : String
  label : String
  ftype : String
  required : Bool
  options : List String
  templates : List String
  snippets_key : Option String
  max_select : Option Nat
  max_tags : Option Nat
  min_items : Option Nat
  max_items : Option Nat
deriving DecidableEq

/-- Template field carrying the defaults. -/
def F0 : TField := ⟨"", "", "", false, [], [], none, none, none, none, none⟩

/-- `evaluate_condition` of `task_request_generation.py` (lines 237-252);
behaviourally identical to `Profile.evaluate_condition`, written in the
compact v2.2 style. Its `except` arm is dead in the model. -/
def evaluate_condition (condition : Option (String × String × Value))
    (current_response : Ctx) : Bool :=
  match condition with
  | none => true
  | some (q_id, operator, value) =>
    match current_response.lookup q_id with
    | none => false
    | some none => false
    | some (some response_value) =>
      if operator = "==" then decide (response_value = value)
      else if operator = "!=" then decide (response_value ≠ value)
      else if operator = "in" then (Profile.seqMem response_value value).getD false
      else if operator = "not in" then
        match Profile.seqMem response_value value with
        | some b => !b
        | none => false
      else false

/-- `get_random_snippet` (lines 254-259). -/
def get_random_snippet (key : String) (r : RandState) : String × RandState :=
  if (CURATED_SNIPPETS key).isEmpty then ("", r)
  else choiceP (CURATED_SNIPPETS key) r

/-- Python `str()` of a value read back out of the record by the template
filler or URL builder. Only string (or missing/None) values are ever read
there by the driver; the remaining cases mirror Python `str` loosely and are
unreachable from `generate_task_request`. -/
def pyStrOfEntry : Option Value → String
  | none => "None"
  | some (.str s) => s
  | some (.bool b) => if b then "True" else "False"
  | some (.list l) =>
    "[" ++ String.intercalate ", " (l.map (fun s => "\x27" ++ s ++ "\x27")) ++ "]"
  | some (.items _) => "[structured items]"

/-- `context.get(key, dflt)` followed by `str()`. -/
def ctxGetD (context : Ctx) (key : String) (dflt : String) : String :=
  match context.lookup key with
  | some v => pyStrOfEntry v
  | none => dflt

/-- Scan to the first closing bracket, returning the text before it and the
rest (the non-greedy `.*?` of the placeholder regex). -/
def findClose (close : Char) : List Char → Option (List Char × List Char)
  | [] => none
  | c :: cs =>
    if c = close then some ([], cs)
    else
      match findClose close cs with
      | some p => some (c :: p.1, p.2)
      | none => none

/-- Fuelled scanner for `re.findall` of bracket/brace placeholders; the fuel
is the input length, which bounds the recursion. -/
def extractGo : Nat → List Char → List String
  | 0, _ => []
  | _, [] => []
  | fuel + 1, c :: cs =>
    if c = '[' then
      match findClose ']' cs with
      | some p => p.1.asString :: extractGo fuel p.2
      | none => extractGo fuel cs
    else if c = '\x7b' then
      match findClose '\x7d' cs with
      | some p => p.1.asString :: extractGo fuel p.2
      | none => extractGo fuel cs
    else extractGo fuel cs

/-- The placeholder list of `fill_template`: every bracketed or braced chunk,
with the empty captures dropped (`if ph`). -/
def extractPlaceholders (template : String) : List String :=
  (extractGo template.length template.toList).filter (fun ph => ph ≠ "")

/-- The `placeholder_map` dict literal of `fill_template` (lines 269-286).
Python evaluates every entry of the literal eagerly, so the draws below are
consumed in this fixed order regardless of which placeholders occur. -/
def placeholderMap (context : Ctx) (r : RandState) :
    List (String × String) × RandState :=
  let item :=
    match context.lookup "item_name" with
    | some v => pyStrOfEntry v
    | none => ctxGetD context "featured_product" "the featured product"
  let discount := randintP 10 50 r
  let amount := randintP 5 20 discount.2
  let dateD := randintP 1 28 amount.2
  let dateM := randintP 1 12 dateD.2
  let timeH := randintP 1 12 dateM.2
  let timeM := choiceP ["00", "30"] timeH.2
  let timeAP := choiceP ["AM", "PM"] timeM.2
  let holidayDflt := choiceP ["Holiday", "Festive"] timeAP.2
  let artist := choiceP ["The Jazz Trio", "Acoustic Nights", "DJ Spinmaster"] holidayDflt.2
  let chef := choiceP ["Chef Wan", "Chef Ismail", "Chef Florence Tan"] artist.2
  let place := choiceP ["[Local City]", "Paris", "Tokyo"] chef.2
  let charity := choiceP ["Local Food Bank", "Orphanage Fund", "Wildlife Conservation"] place.2
  let number := randintP 1 10 charity.2
  let color := choiceP ["Red", "Blue", "Green", "Yellow", "Black", "White"] number.2
  let color1 := randintP 0 16777215 color.2
  let color2 := randintP 0 16777215 color1.2
  ([("ITEM", item),
    ("Promo Type", ctxGetD context "promo_type" "Special Offer"),
    ("Discount", toString discount.1),
    ("Amount", toString amount.1),
    ("Date", toString dateD.1 ++ "/" ++ toString dateM.1 ++ "/2025"),
    ("Time", toString timeH.1 ++ ":" ++ timeM.1 ++ " " ++ timeAP.1),
    ("Holiday", ctxGetD context "event_name" holidayDflt.1),
    ("Artist Name", artist.1),
    ("Chef\x27s Name", chef.1),
    ("Place", place.1),
    ("Charity Name", charity.1),
    ("Number", toString number.1),
    ("COLOR", color.1),
    ("COLOR1", "#" ++ hexPad 6 color1.1),
    ("COLOR2", "#" ++ hexPad 6 color2.1),
    ("Cuisine Type", ctxGetD context "cuisine_type" "our delicious")], color2.2)

/-- Index of the left-most occurrence of `pat` in `s`. -/
def firstIdxOf (pat : List Char) : List Char → Option Nat
  | [] => none
  | c :: tail =>
    if pat.isPrefixOf (c :: tail) then some 0
    else
      match firstIdxOf pat tail with
      | some i => some (i + 1)
      | none => none

/-- Splice `rep` over `len` characters at position `i`. -/
def replaceRange (s : List Char) (i len : Nat) (rep : List Char) : List Char :=
  s.take i ++ rep ++ s.drop (i + len)

/-- One `re.sub(r'(\[ph\]|\x7bph\x7d)', replacement, t, count=1)` step of the
substitution loop: replace the left-most occurrence of `[ph]` or of the
braced form of `ph`. -/
def substOnePlaceholder (mp : List (String × String)) (t : String) (ph : String) :
    String :=
  let rep := ((mp.lookup ph).getD ("[" ++ ph ++ "]")).toList
  let s := t.toList
  let patB := ("[" ++ ph ++ "]").toList
  let patC := ("\x7b" ++ ph ++ "\x7d").toList
  match firstIdxOf patB s, firstIdxOf patC s with
  | some i, some j =>
    if i ≤ j then (replaceRange s i patB.length rep).asString
    else (replaceRange s j patC.length rep).asString
  | some i, none => (replaceRange s i patB.length rep).asString
  | none, some j => (replaceRange s j patC.length rep).asString
  | none, none => t

/-- `fill_template` (lines 261-293). -/
def fill_template (templates : List String) (context : Ctx) (r : RandState)
    (u : UuidState) : String × RandState × UuidState :=
  if templates.isEmpty then
    let h := uuidHexP 4 u
    ("Generic text " ++ h.1, r, h.2)
  else
    let tpl := choiceP templates r
    let placeholders := extractPlaceholders tpl.1
    let mp := placeholderMap context tpl.2
    let filled := placeholders.foldl (substOnePlaceholder mp.1) tpl.1
    if filled = tpl.1 ∧ placeholders.isEmpty then
      let w := choiceP ["info", "detail", "spec"] mp.2
      let h := uuidHexP 3 u
      (filled ++ " " ++ w.1 ++ " " ++ h.1, w.2, h.2)
    else (filled, mp.2, u)

/-- `re.sub(r'[^\w\s-]', '', v)`: drop everything except word characters,
whitespace and hyphens. -/
def stripPunct (s : String) : String :=
  (s.toList.filter (fun c => c.isAlphanum || c = '_' || c.isWhitespace || c = '-')).asString

/-- Python `str.split()` with no separator: split on whitespace runs,
dropping empty pieces. -/
def pySplitWs (s : String) : List String :=
  (s.split Char.isWhitespace).filter (fun w => w ≠ "")

/-- The str branch of the URL term builder: keep at most the first four
words, then strip punctuation. -/
def truncTo4Words (s : String) : String :=
  let ws := pySplitWs s
  if 4 < ws.length then String.intercalate " " (ws.take 4) else s

/-- The term a context value contributes to the placeholder-URL query, or
`none` when the value is falsy or neither str nor a list of strings. A
structured-items value is also mapped to `none`: the keys the URL builder
reads are never structured lists in the driver. -/
def urlTermOfValue : Option Value → Option String
  | some (.str s) =>
    if s = "" then none else some (stripPunct (truncTo4Words s)).trim
  | some (.list l) =>
    if l.isEmpty then none else some (stripPunct (String.intercalate " " l)).trim
  | _ => none

def urlKeys : List String :=
  ["item_name", "scene_desc", "activity", "element_type", "area_view",
   "event_name", "visual_style", "mood_vibe", "atmosphere", "feel"]

/-- One iteration of the `for key in keys_to_include` loop: state is
(query_parts, added_terms). -/
def addTerm (context : Ctx) (st : List String × List String) (key : String) :
    List String × List String :=
  match context.lookup key with
  | none => st
  | some v =>
    match urlTermOfValue v with
    | none => st
    | some t =>
      if t ≠ "" ∧ ¬ st.2.contains t then (st.1 ++ [t], st.2 ++ [t]) else st

/-- Upper-case hexadecimal digit, as `urllib.parse.quote` uses. -/
def hexUpperChar (n : Nat) : Char :=
  if n < 10 then Char.ofNat (48 + n) else Char.ofNat (55 + n)

/-- `urllib.parse.quote` of one character (the inputs here are ASCII). -/
def urlQuoteChar (c : Char) : String :=
  if c.isAlphanum || c = '_' || c = '.' || c = '-' || c = '~' || c = '/' then
    String.singleton c
  else "%" ++ String.mk [hexUpperChar (c.toNat / 16 % 16), hexUpperChar (c.toNat % 16)]

def urlQuote (s : String) : String :=
  String.join (s.toList.map urlQuoteChar)

/-- `simulate_placeholder_url` (lines 295-316). -/
def simulate_placeholder_url (context : Ctx) (u : UuidState) :
    String × UuidState :=
  let first :=
    match context.lookup "task_category" with
    | some v => pyStrOfEntry v
    | none => "image"
  let st := urlKeys.foldl (addTerm context) ([first], [])
  let query_string := String.intercalate " " st.1
  let collapsed := String.intercalate "+" (pySplitWs query_string)
  let h := uuidHexP 8 u
  ("https://simulated-image-reference.example.com/search?query=" ++
    urlQuote collapsed ++ "&sim_id=" ++ h.1, h.2)

def menuAdjs : List String :=
  ["Spicy", "Classic", "Grilled", "Homemade", "Signature", "Crispy", "Creamy",
   "Authentic", "Zesty"]

def menuNouns : List String :=
  ["Chicken", "Beef", "Lamb", "Fish", "Vegetable", "Tofu", "Noodle", "Rice",
   "Curry", "Soup", "Sambal", "Quinoa"]

def menuDishTypes : List String :=
  ["Rendang", "Satay", "Laksa", "Burger", "Pizza", "Salad", "Stir-fry", "Bowl",
   "Taco", "Wrap"]

def menuDescTails : List String :=
  ["highly recommended", "customer favorite", "new item", "must try!",
   "perfect for sharing"]

/-- `:.2f` rendering of a price held as an integer number of cents. -/
def formatCents (cents : Nat) : String :=
  toString (cents / 100) ++ "." ++
    (if cents % 100 < 10 then "0" else "") ++ toString (cents % 100)

/-- The item loop of the `structured_list` branch: names from random tokens
plus a uuid suffix, a price in `RM` two-decimal format (`random.uniform(8.0,
75.0)` modelled at cent precision), and a description exactly when the
single per-list draw said so. -/
def menuItems : Nat → Bool → RandState → UuidState →
    List MenuItem × RandState × UuidState
  | 0, _, r, u => ([], r, u)
  | n + 1, include_descriptions, r, u =>
    let adj := choiceP menuAdjs r
    let noun := choiceP menuNouns adj.2
    let dish := choiceP menuDishTypes noun.2
    let h := uuidHexP 2 u
    let item_name := adj.1 ++ " " ++ noun.1 ++ " " ++ dish.1 ++ " " ++ h.1
    let pr := randintP 800 7500 dish.2
    let price := "RM" ++ formatCents pr.1
    if include_descriptions then
      let dc := choiceP menuDescTails pr.2
      let desc := "A brief description for " ++ item_name ++ ", " ++ dc.1 ++ "."
      let rest := menuItems n include_descriptions dc.2 h.2
      (⟨item_name, price, some desc⟩ :: rest.1, rest.2)
    else
      let rest := menuItems n include_descriptions pr.2 h.2
      (⟨item_name, price, none⟩ :: rest.1, rest.2)

/-- The `[f"SimTag..." for i in range(k)]` fallback of the tags branch. -/
def simTagList : Nat → Nat → UuidState → List String × UuidState
  | _, 0, u => ([], u)
  | i, n + 1, u =>
    let h := uuidHexP 3 u
    let rest := simTagList (i + 1) n h.2
    (("SimTag" ++ toString (i + 1) ++ "_" ++ h.1) :: rest.1, rest.2)

/-- `simulate_field_value` (lines 319-399). Every branch of the source
assigns a value, so the result is a total `Value`; the `except` arm is dead
in the model because no modelled operation raises. -/
def simulate_field_value (field_definition : TField) (context : Ctx)
    (r : RandState) (u : UuidState) : Value × RandState × UuidState :=
  let field_type := field_definition.ftype
  let options := field_definition.options
  let templates := field_definition.templates
  if field_type = "text" then
    if ¬ templates.isEmpty then
      let t := fill_template templates context r u
      (Value.str t.1, t.2)
    else
      match field_definition.snippets_key with
      | some key =>
        let t := get_random_snippet key r
        (Value.str t.1, t.2, u)
      | none =>
        let h := uuidHexP 4 u
        (Value.str ("Simulated " ++ field_definition.label.replace ":" "" ++
          " text " ++ h.1), r, h.2)
  else if field_type = "text_area" then
    match field_definition.snippets_key with
    | some key =>
      let t := get_random_snippet key r
      (Value.str t.1, t.2, u)
    | none =>
      let c := choiceP ["Focus on quality.", "Make it appealing.", "Keep it concise."] r
      (Value.str ("Simulated detailed text for " ++
        field_definition.label.replace ":" "" ++ ". " ++ c.1), c.2, u)
  else if field_type = "tags" ∨ field_type = "checkbox" then
    let max_select := field_definition.max_select.getD
      (if field_type = "tags" then 3 else options.length)
    let is_required := field_definition.required
    let min_k := if is_required ∧ ¬ options.isEmpty then 1 else 0
    let upper_bound := min max_select options.length
    if upper_bound < min_k then (Value.list [], r, u)
    else
      let kd := randintP min_k upper_bound r
      if 0 < kd.1 then
        if ¬ options.isEmpty then
          let s := sampleP options kd.1 kd.2
          (Value.list s.1, s.2, u)
        else
          match field_definition.snippets_key with
          | some key =>
            if ¬ (CURATED_SNIPPETS key).isEmpty then
              let num_available := (CURATED_SNIPPETS key).length
              let k2 := min kd.1 num_available
              if 0 < k2 then
                let s := sampleP (CURATED_SNIPPETS key) k2 kd.2
                (Value.list s.1, s.2, u)
              else (Value.list [], kd.2, u)
            else if field_type = "tags" then
              let t := simTagList 0 kd.1 u
              (Value.list t.1, kd.2, t.2)
            else (Value.list [], kd.2, u)
          | none =>
            if field_type = "tags" then
              let t := simTagList 0 kd.1 u
              (Value.list t.1, kd.2, t.2)
            else (Value.list [], kd.2, u)
      else (Value.list [], kd.2, u)
  else if field_type = "dropdown" ∨ field_type = "dropdown_visual" then
    if ¬ options.isEmpty then
      let c := choiceP options r
      (Value.str c.1, c.2, u)
    else (Value.str "Error: No Options", r, u)
  else if field_type = "dropdown_text" then
    if ¬ options.isEmpty then
      let x := unitP r
      if x.1 < mkRat 7 10 then
        let c := choiceP options x.2
        (Value.str c.1, c.2, u)
      else if ¬ templates.isEmpty then
        let t := fill_template templates context x.2 u
        (Value.str t.1, t.2)
      else
        let h := uuidHexP 4 u
        (Value.str ("Simulated text entry " ++ h.1), x.2, h.2)
    else if ¬ templates.isEmpty then
      let t := fill_template templates context r u
      (Value.str t.1, t.2)
    else
      let h := uuidHexP 4 u
      (Value.str ("Simulated text entry " ++ h.1), r, h.2)
  else if field_type = "checkbox_bool" then
    let c := choicePD [true, false] true r
    (Value.bool c.1, c.2, u)
  else if field_type = "structured_list" then
    let min_items := field_definition.min_items.getD 1
    let max_items := field_definition.max_items.getD 3
    let nd := randintP min_items max_items r
    let inc := unitP nd.2
    let include_descriptions := decide (inc.1 < MENU_ITEM_DESCRIPTION_CHANCE)
    let its := menuItems nd.1 include_descriptions inc.2 u
    (Value.items its.1, its.2)
  else if field_type = "file_upload" then
    let t := simulate_placeholder_url context u
    (Value.str t.1, r, t.2)
  else
    (Value.str ("Error: Unknown Type \x27" ++ field_type ++ "\x27"), r, u)

end TaskReq

namespace TaskReq

/-- `TASK_FIELDS["Product Shot"]`. -/
def productShotFields : List TField := [
  { F0 with
      id := "item_name", label := "Food/Drink Item Name:", ftype := "text",
      required := true,
      templates := ["Our signature [ITEM]", "A delicious plate of [ITEM]",
        "Freshly made [ITEM]", "Classic [ITEM]", "Spicy [ITEM]"] },
  { F0 with
      id := "features", label := "Key Ingredients/Features to Highlight:",
      ftype := "tags", snippets_key := some "product_features", max_tags := some 3 },
  { F0 with
      id := "presentation", label := "Desired Presentation:", ftype := "dropdown_visual",
      options := ["Plated (Top-Down/Overhead)", "Plated (Angled/3-Quarter)",
        "Close-up/Macro", "Held in Hand", "Action (e.g., pouring, cutting)",
        "In Packaging", "Deconstructed", "Family-Style Platter"] },
  { F0 with
      id := "background", label := "Background/Setting:", ftype := "dropdown_visual",
      options := ["Simple/Neutral Gradient", "Studio White", "Rustic Wood",
        "Marble Surface", "Relevant Context (e.g., Cafe Blur, Kitchen Counter)",
        "Use Brand Colors", "Slate Board", "Concrete Surface"] },
  { F0 with
      id := "props", label := "Props:", ftype := "tags",
      snippets_key := some "props_prod", max_tags := some 2 },
  { F0 with
      id := "ref_image", label := "Reference Image(s):", ftype := "file_upload" },
  { F0 with
      id := "ref_instructions", label := "Instructions for Reference Image(s):",
      ftype := "text_area", snippets_key := some "ref_image_instructions" }]

/-- `TASK_FIELDS["Menu Display"]`. -/
def menuDisplayFields : List TField := [
  { F0 with
      id := "menu_items", label := "Menu Items:", ftype := "structured_list",
      required := true, min_items := some 1, max_items := some 5 },
  { F0 with
      id := "section_title", label := "Menu Section Title (Optional):", ftype := "text",
      templates := ["\x7bCuisine Type\x7d Specials", "Our Starters", "Desserts Menu",
        "Drinks List", "Chef Recommendations"] },
  { F0 with
      id := "layout_style", label := "Layout Style:", ftype := "dropdown_visual",
      options := ["Simple List", "Two Column", "Grid with Images",
        "Minimalist Text-Heavy", "Ornate/Themed", "Modern Clean Grid"] },
  { F0 with
      id := "include_item_images", label := "Include Item Images?",
      ftype := "checkbox_bool" },
  { F0 with
      id := "include_logo", label := "Include Logo?", ftype := "checkbox_bool" },
  { F0 with
      id := "ref_image", label := "Reference Image(s) (e.g., layout examples):",
      ftype := "file_upload" },
  { F0 with
      id := "ref_instructions", label := "Instructions for Reference Image(s):",
      ftype := "text_area", snippets_key := some "ref_image_instructions" }]

/-- `TASK_FIELDS["Lifestyle Shot"]`. -/
def lifestyleShotFields : List TField := [
  { F0 with
      id := "scene_desc", label := "Describe Scene/Activity:", ftype := "text_area",
      required := true, snippets_key := some "lifestyle_scenes" },
  { F0 with
      id := "featured_product", label := "Product(s) to Feature (if any):",
      ftype := "text",
      templates := ["Featuring our [ITEM]", "Subtly showing the [ITEM]",
        "Enjoying a [ITEM]", "Sharing a plate of [ITEM]"] },
  { F0 with
      id := "setting", label := "Setting:", ftype := "dropdown",
      options := ["Our Establishment (Interior)", "Our Establishment (Exterior/Patio)",
        "Relevant Public Space (e.g., Park, Street, Beach)",
        "Customer\x27s Location (e.g., Home, Office)", "Scenic Viewpoint"] },
  { F0 with
      id := "people", label := "People Involved:", ftype := "dropdown",
      options := ["No People (Focus on Product/Setting)", "One Person", "Couple",
        "Small Group (Friends/Colleagues)", "Family", "Diverse Group"] },
  { F0 with
      id := "mood_vibe", label := "Overall Mood/Vibe:", ftype := "dropdown",
      options := ["Cozy/Relaxed", "Bright/Energetic", "Romantic/Intimate",
        "Busy/Social", "Professional/Business", "Fun/Playful",
        "Aspirational/Luxury", "Nostalgic", "Adventurous"] },
  { F0 with
      id := "time_of_day", label := "Time of Day Suggestion:", ftype := "dropdown",
      options := ["Morning", "Midday/Lunch", "Afternoon", "Golden Hour/Sunset",
        "Evening/Dinner", "Late Night"] },
  { F0 with
      id := "ref_image",
      label := "Reference Image(s) (e.g., mood, style, composition):",
      ftype := "file_upload" },
  { F0 with
      id := "ref_instructions", label := "Instructions for Reference Image(s):",
      ftype := "text_area", snippets_key := some "ref_image_instructions" }]

/-- `TASK_FIELDS["Promotional Graphic"]`. -/
def promotionalGraphicFields : List TField := [
  { F0 with
      id := "promo_type", label := "Promotion Type:", ftype := "dropdown",
      required := true,
      options := ["Percentage Discount", "Fixed Amount Off", "Buy One Get One (BOGO)",
        "Free Item", "New Product Launch", "Limited Time Offer (LTO)",
        "Event Announcement", "Holiday Special", "General Awareness", "Combo Deal"] },
  { F0 with
      id := "headline", label := "Main Text/Headline:", ftype := "text",
      required := true,
      templates := ["\x7bPromo Type\x7d: [ITEM]!", "Special Offer!",
        "Don\x27t Miss Out!", "New Arrival: [ITEM]", "Weekend Deal!",
        "Limited Time Only!"] },
  { F0 with
      id := "details", label := "Offer Details/Sub-headline:", ftype := "text",
      templates := ["Get \x7bDiscount\x7d% off today!", "Free \x7bItem\x7d with purchase!",
        "Available this weekend only.", "RM\x7bAmount\x7d off your next order.",
        "Buy 2 Get 1 Free!"] },
  { F0 with
      id := "visual_idea", label := "Key Visual Element:", ftype := "dropdown_text",
      options := ["Photo of Featured Product", "Abstract Brand Graphics",
        "Illustrative Elements", "Stock Photo (Themed)", "Text Only",
        "Animated Graphic Elements"],
      templates := ["Focus on the [ITEM]", "Use festive graphics",
        "Clean text design", "Show happy customer"] },
  { F0 with
      id := "cta", label := "Call to Action Text:", ftype := "text",
      options := ["Order Now!", "Visit Us Today!", "Learn More", "Book Your Table",
        "Shop Now", "Redeem Offer"],
      templates := ["Tap to Order", "Find Us Here", "See Menu"] },
  { F0 with
      id := "include_logo", label := "Include Logo?", ftype := "checkbox_bool" },
  { F0 with
      id := "duration", label := "Promotion Duration (Optional):", ftype := "text",
      templates := ["Valid until [Date]", "This week only", "Ends Sunday",
        "From [Date] to [Date]"] },
  { F0 with
      id := "ref_image",
      label := "Reference Image(s) (e.g., style, layout inspiration):",
      ftype := "file_upload" },
  { F0 with
      id := "ref_instructions", label := "Instructions for Reference Image(s):",
      ftype := "text_area", snippets_key := some "ref_image_instructions" }]

/-- `TASK_FIELDS["Branding Element"]`. -/
def brandingElementFields : List TField := [
  { F0 with
      id := "element_type", label := "Element Type:", ftype := "dropdown",
      required := true,
      options := ["Social Media Post Template", "Social Media Story Template",
        "Website Banner Element", "Brand Pattern (Seamless)", "Icon Set",
        "Presentation Slide Background", "Email Header Graphic"] },
  { F0 with
      id := "intended_use", label := "Intended Use/Platform:", ftype := "text",
      templates := ["For Instagram Feed", "Website Hero Section", "Packaging design",
        "Internal presentation", "Facebook Ad", "Email Newsletter"] },
  { F0 with
      id := "theme_keywords", label := "Key Theme/Keywords:", ftype := "tags",
      snippets_key := some "branding_themes", max_tags := some 3 },
  { F0 with
      id := "text_placeholders", label := "Text Placeholder(s) Needed?", ftype := "text",
      templates := ["Space for headline", "Area for body text",
        "Button text placeholder", "Price placeholder", "Contact info area"] },
  { F0 with
      id := "ref_image",
      label := "Reference Image(s) (e.g., style examples, existing assets):",
      ftype := "file_upload" },
  { F0 with
      id := "ref_instructions", label := "Instructions for Reference Image(s):",
      ftype := "text_area", snippets_key := some "ref_image_instructions" }]

/-- `TASK_FIELDS["Location/Ambiance Shot"]`. -/
def locationAmbianceFields : List TField := [
  { F0 with
      id := "area_view", label := "Area/View:", ftype := "dropdown_text",
      required := true,
      options := ["Main Dining Area", "Bar/Counter Area", "Outdoor Seating/Patio",
        "Entrance/Storefront", "Specific Decor Feature", "Overall Atmosphere",
        "Washroom Detail", "Kitchen Window View"],
      templates := ["Focus on the main dining space", "Show the bar setup",
        "Capture the outdoor patio vibe", "Wide shot of the entrance"] },
  { F0 with
      id := "atmosphere", label := "Desired Atmosphere:", ftype := "dropdown",
      options := ["Busy/Lively", "Quiet/Intimate", "Relaxed/Casual",
        "Upscale/Elegant", "Cozy/Warm", "Bright/Airy", "Modern/Chic",
        "Rustic/Homely"] },
  { F0 with
      id := "time_of_day", label := "Time of Day:", ftype := "dropdown",
      options := ["Daytime (Bright)", "Golden Hour (Warm)", "Evening (Ambient/Lit)",
        "Night (Exterior/Interior Glow)", "Blue Hour"] },
  { F0 with
      id := "features_include", label := "Key Features to Include (Optional):",
      ftype := "tags", snippets_key := some "location_features", max_tags := some 3 },
  { F0 with
      id := "ref_image",
      label := "Reference Image(s) (e.g., photos of the actual space, inspiration):",
      ftype := "file_upload" },
  { F0 with
      id := "ref_instructions", label := "Instructions for Reference Image(s):",
      ftype := "text_area", snippets_key := some "ref_image_instructions" }]

/-- `TASK_FIELDS["Event Promotion"]`. -/
def eventPromotionFields : List TField := [
  { F0 with
      id := "event_name", label := "Event Name:", ftype := "text", required := true,
      templates := ["\x7bHoliday\x7d Special", "Live Music Night", "Guest Chef Dinner",
        "Anniversary Celebration", "Weekend Brunch Fest"] },
  { F0 with
      id := "event_type", label := "Event Type:", ftype := "dropdown", required := true,
      options := ["Live Music/Performance", "Tasting Menu/Dinner", "Workshop/Class",
        "Holiday Special", "Guest Chef/Bartender", "Charity Event",
        "Opening/Anniversary", "Themed Night", "Sports Screening"] },
  { F0 with
      id := "event_datetime", label := "Date(s) & Time(s):", ftype := "text",
      required := true,
      templates := ["Saturday, [Date] at 7 PM", "Weekend of [Date]",
        "From [Time] to [Time] on [Date]", "Every Friday Night"] },
  { F0 with
      id := "highlights", label := "Key Highlights/Description:", ftype := "text_area",
      snippets_key := some "event_highlights" },
  { F0 with
      id := "event_audience", label := "Target Audience for Event:", ftype := "text",
      templates := ["Perfect for couples", "Family-friendly event",
        "Ideal for foodies", "Great for corporate teams"] },
  { F0 with
      id := "visual_idea", label := "Key Visual Element Idea:", ftype := "dropdown_text",
      options := ["Photo related to event type", "Abstract/Themed Graphics",
        "Venue photo", "Illustrations of event activity"],
      templates := ["Show the live band", "Feature the special menu item",
        "Use festive graphics", "Illustrate people learning"] },
  { F0 with
      id := "include_logo", label := "Include Logo?", ftype := "checkbox_bool" },
  { F0 with
      id := "ref_image",
      label := "Reference Image(s) (e.g., past event photos, style inspiration):",
      ftype := "file_upload" },
  { F0 with
      id := "ref_instructions", label := "Instructions for Reference Image(s):",
      ftype := "text_area", snippets_key := some "ref_image_instructions" }]

/-- `TASK_FIELDS["Behind-the-Scenes"]`. -/
def behindTheScenesFields : List TField := [
  { F0 with
      id := "activity", label := "Activity/Subject:", ftype := "dropdown_text",
      required := true,
      options := ["Chef Cooking/Prepping", "Chef Plating Dish",
        "Barista Making Coffee/Drink", "Baker Kneading/Decorating",
        "Staff Interaction (Teamwork)", "Serving Customer",
        "Fresh Ingredients Focus", "Kitchen Environment", "Receiving Delivery"],
      snippets_key := some "bts_activities" },
  { F0 with
      id := "location_bts", label := "Location within Business:", ftype := "dropdown",
      options := ["Kitchen", "Bar Area", "Service Counter",
        "Dining Area (during prep)", "Storage/Receiving",
        "Outdoor Area (e.g., herb garden)"] },
  { F0 with
      id := "feel", label := "Desired Feel:", ftype := "dropdown",
      options := ["Authentic/Candid", "Clean/Professional", "Artistic/Detailed",
        "Energetic/Busy", "Passionate/Focused", "Educational"] },
  { F0 with
      id := "emphasize", label := "Emphasize:", ftype := "tags",
      snippets_key := some "bts_feel", max_tags := some 2 },
  { F0 with
      id := "ref_image",
      label := "Reference Image(s) (e.g., photos of staff/kitchen, style examples):",
      ftype := "file_upload" },
  { F0 with
      id := "ref_instructions", label := "Instructions for Reference Image(s):",
      ftype := "text_area", snippets_key := some "ref_image_instructions" }]

/-- `TASK_FIELDS` (lines 142-217), as an association list keyed by task
category. -/
def TASK_FIELDS : List (String × List TField) := [
  ("Product Shot", productShotFields),
  ("Menu Display", menuDisplayFields),
  ("Lifestyle Shot", lifestyleShotFields),
  ("Promotional Graphic", promotionalGraphicFields),
  ("Branding Element", brandingElementFields),
  ("Location/Ambiance Shot", locationAmbianceFields),
  ("Event Promotion", eventPromotionFields),
  ("Behind-the-Scenes", behindTheScenesFields)]

/-- `COMMON_REFINEMENT_FIELDS` (lines 220-232). -/
def COMMON_REFINEMENT_FIELDS : List TField := [
  { F0 with
      id := "target_platforms", label := "Target Platform(s):", ftype := "checkbox",
      required := true,
      options := ["Instagram Post (Square 1:1)", "Instagram Story/Reel (9:16)",
        "Facebook Post/Ad (Multiple AR)", "TikTok Video (9:16)",
        "Website Banner (e.g., 16:9 Wide)", "Website Content (Flexible AR)",
        "Google Business Profile",
        "WhatsApp Status/Broadcast", "Xiaohongshu (Red)",
        "Print (Specify use in additional instructions)"],
      max_select := some 3 },
  { F0 with
      id := "visual_style", label := "Visual Style:", ftype := "dropdown_visual",
      required := true,
      options := ["Photorealistic", "Cinematic", "Illustration", "3D Render",
        "Watercolor", "Anime/Manga", "Cartoonish", "Modern", "Rustic",
        "Minimalist", "Vibrant", "Elegant", "Vintage", "Cyberpunk"] },
  { F0 with
      id := "color_palette_adj",
      label := "Specific colors to emphasize or avoid?", ftype := "text",
      templates := ["Emphasize warm tones like orange and brown",
        "Avoid using bright pink", "Use pastel colors primarily",
        "Stick to brand palette: [COLOR1], [COLOR2]",
        "Monochromatic scheme based on [COLOR]"] },
  { F0 with
      id := "composition_angle", label := "Preferred angle or shot type?",
      ftype := "dropdown",
      options := ["Overhead/Flat Lay", "Eye-Level", "Low Angle", "High Angle",
        "Close-up", "Medium Shot", "Wide Shot", "Dutch Angle",
        "Point of View (POV)"] },
  { F0 with
      id := "additional_instructions", label := "Additional Instructions / Keywords:",
      ftype := "text_area", snippets_key := some "additional_instructions" }]

/-- The should-simulate decision for one category field (lines 420-434).
The source draws the general optional chance first and may then overwrite
the decision with the reference-image draw, or with the
reference-instructions rule, which draws only when `ref_image` is
present and non-null. -/
def taskGate (field_def : TField) (task_data : Ctx) (r : RandState) :
    Bool × RandState :=
  if field_def.required then (true, r)
  else
    let x := unitP r
    if field_def.ftype = "file_upload" ∧ field_def.id = "ref_image" then
      let y := unitP x.2
      (decide (y.1 < REFERENCE_IMAGE_CHANCE), y.2)
    else if field_def.ftype = "text_area" ∧ field_def.id = "ref_instructions" then
      match task_data.lookup "ref_image" with
      | some (some _) =>
        let y := unitP x.2
        (decide (y.1 < OPTIONAL_FIELD_CHANCE), y.2)
      | _ => (false, x.2)
    else (decide (x.1 < OPTIONAL_FIELD_CHANCE), x.2)

/-- The should-simulate decision for one common refinement field
(lines 446-457): required fields always, optional ones by the per-field
chance. -/
def refineGate (field_def : TField) (_task_data : Ctx) (r : RandState) :
    Bool × RandState :=
  if field_def.required then (true, r)
  else
    let chance := if field_def.id = "additional_instructions"
      then ADDITIONAL_INSTRUCTIONS_CHANCE else OPTIONAL_FIELD_CHANCE
    let x := unitP r
    (decide (x.1 < chance), x.2)

/-- One iteration of a field loop of `generate_task_request`: gate the
field, then either simulate a value or store `None`. -/
def fieldStep (gate : TField → Ctx → RandState → Bool × RandState)
    (f : TField) (c : Ctx) (r : RandState) (u : UuidState) :
    Option Value × RandState × UuidState :=
  let g := gate f c r
  if g.1 then
    let v := simulate_field_value f c g.2 u
    (some v.1, v.2)
  else (none, g.2, u)

/-- The shared shape of the two field loops of `generate_task_request`:
walk the fields in order, gate each one, store its simulated value or
`None`. -/
def processFields (gate : TField → Ctx → RandState → Bool × RandState) :
    List TField → Ctx → RandState → UuidState → Ctx × RandState × UuidState
  | [], c, r, u => (c, r, u)
  | f :: fs, c, r, u =>
    let s := fieldStep gate f c r u
    processFields gate fs (c ++ [(f.id, s.1)]) s.2.1 s.2.2

/-- `generate_task_request` (lines 404-465): one simulated task request. -/
def generate_task_request (r : RandState) (u : UuidState) :
    Ctx × RandState × UuidState :=
  let cat := choiceP TASK_CATEGORIES r
  let task_data : Ctx := [("task_category", some (Value.str cat.1))]
  match TASK_FIELDS.lookup cat.1 with
  | some fs =>
    let s := processFields taskGate fs task_data cat.2 u
    processFields refineGate COMMON_REFINEMENT_FIELDS s.1 s.2.1 s.2.2
  | none =>
    processFields refineGate COMMON_REFINEMENT_FIELDS task_data cat.2 u

/-- The generation loop of `generate_simulation_dataset`. -/
def taskLoop : Nat → RandState → UuidState → List Ctx × RandState × UuidState
  | 0, r, u => ([], r, u)
  | n + 1, r, u =>
    let p := generate_task_request r u
    let rest := taskLoop n p.2.1 p.2.2
    (p.1 :: rest.1, rest.2)

/-- `generate_simulation_dataset` (lines 469-513): `n` task requests, or the
empty list when `n < 1`. -/
def generate_simulation_dataset (n : Int) (r : RandState) (u : UuidState) :
    List Ctx × RandState × UuidState :=
  if n < 1 then ([], r, u)
  else taskLoop n.toNat r u

end TaskReq

/-! Further definitions used by the claim theorems: intermediate states,
spec-side predicates, and concrete inputs. -/

/-- The record context reached just before question `i` of the schema is
processed by `Profile.generate_profile`. -/
def Profile.reachState (qs : List Profile.Question) (r : RandState)
    (u : UuidState) (i : Nat) : Ctx × RandState × UuidState :=
  Profile.profileAux (qs.take i) [] r u

/-- Constant-stream state of the `random` module, for concrete runs. -/
def rConst (k : Nat) : RandState := ⟨fun _ => k, 0⟩

/-- Constant-stream uuid entropy, for concrete runs. -/
def uConst (k : Nat) : UuidState := ⟨fun _ => k, 0⟩

/-- Spec-side reading (claim C2): the comparison value is a Python sequence
(list/tuple/set; a list of structured items is a Python list). -/
def CondSeq (v : Value) : Prop :=
  (∃ vs, v = Value.list vs) ∨ (∃ its, v = Value.items its)

/-- Spec-side reading (claim C2): the answer is a member of the comparison
sequence. -/
def CondMem (rv v : Value) : Prop :=
  ∃ vs s, v = Value.list vs ∧ rv = Value.str s ∧ s ∈ vs

/-- Spec-side reading (claim C2): the operator comparison holds. -/
def CondOpHolds (op : String) (rv v : Value) : Prop :=
  (op = "==" ∧ rv = v) ∨ (op = "!=" ∧ rv ≠ v) ∨
  (op = "in" ∧ CondMem rv v) ∨ (op = "not in" ∧ CondSeq v ∧ ¬ CondMem rv v)

/-- Spec-side reading (claim C2): the evaluator should return true exactly
when there is no condition, or the prerequisite is present, non-null, and
the operator comparison holds. -/
def CondTrueSpec (condition : Option (String × String × Value)) (cx : Ctx) :
    Prop :=
  condition = none ∨
    ∃ q op v rv, condition = some (q, op, v) ∧ cx.lookup q = some (some rv) ∧
      CondOpHolds op rv v

/-- The `scene_desc` field of the Lifestyle Shot category: a long-text field
fed from snippets (claim C6). -/
def TaskReq.sceneDescField : TaskReq.TField :=
  TaskReq.lifestyleShotFields.getD 0 TaskReq.F0

/-- The `menu_items` field of the Menu Display category: the structured-list
field with item bounds [1,5] (claim C7). -/
def TaskReq.menuItemsField : TaskReq.TField :=
  TaskReq.menuDisplayFields.getD 0 TaskReq.F0

/-- A well-formed optional multi-select field with a non-empty option list,
of the shape the §4.2 simulator contract quantifies over (claim C3). -/
def TaskReq.cexTagsField : TaskReq.TField :=
  { TaskReq.F0 with
      id := "cex_tags", label := "Cex:", ftype := "tags",
      options := ["Option A", "Option B"] }

/-- The effective maximum selection count of a multi-select field
(`field_definition.get("max_select", 3 if field_type == "tags" else
len(options))`). -/
def TaskReq.maxSelectOf (f : TaskReq.TField) : Nat :=
  f.max_select.getD (if f.ftype = "tags" then 3 else f.options.length)

/-- The null/non-null skeleton of a record: each key with whether its value
is non-null (claim C8). -/
def skelCtx (cx : Ctx) : List (String × Bool) :=
  cx.map (fun e => (e.1, e.2.isSome))

/-- The skeleton of a whole dataset (claim C8). -/
def skelDataset (l : List Ctx) : List (List (String × Bool)) :=
  l.map skelCtx

/-- Structural side conditions on a schema under which the record skeleton
depends only on the `random`-module stream (claim C8): every condition
references only `q1`, and a question with id `q1` is a dropdown (whose value
draws nothing from the uuid stream). `FORM_STRUCTURE` satisfies this by
`decide`. -/
def Profile.okQ (q : Profile.Question) : Bool :=
  (match q.condition with
   | none => true
   | some p => p.1 == "q1") &&
  (q.id != "q1" || q.qtype == "dropdown")

/-- A question with a kind outside the simulator's dispatch (claim C4). -/
def Profile.qUnknown : Profile.Question :=
  { Profile.Q0 with id := "qx", qtype := "wizard" }

/-- A single-choice question with no options (claim C4). -/
def Profile.qNoOptions : Profile.Question :=
  { Profile.Q0 with id := "qy", qtype := "dropdown" }

/-- A task field with a kind outside the simulator's dispatch (claim C4). -/
def TaskReq.fUnknown : TaskReq.TField :=
  { TaskReq.F0 with id := "fx", label := "X:", ftype := "wizard" }

/-- A single-choice task field with no options (claim C4). -/
def TaskReq.fNoOptions : TaskReq.TField :=
  { TaskReq.F0 with id := "fy", label := "Y:", ftype := "dropdown" }

/-! Basic facts about the modelled random draws. -/

theorem randintP_bounds (a b : Nat) (r : RandState) (h : a ≤ b) :
    a ≤ (randintP a b r).1 ∧ (randintP a b r).1 ≤ b := by
  unfold randintP
  have hm : r.d % (b + 1 - a) < b + 1 - a := Nat.mod_lt _ (by omega)
  exact ⟨by omega, by simp only; omega⟩

theorem choicePD_mem {α : Type} (l : List α) (dflt : α) (r : RandState)
    (h : l ≠ []) : (choicePD l dflt r).1 ∈ l := by
  unfold choicePD
  have hlen : 0 < l.length := List.length_pos.mpr h
  have hi : r.d % l.length < l.length := Nat.mod_lt _ hlen
  simp only
  rw [List.getD_eq_getElem l dflt hi]
  exact List.getElem_mem hi

theorem choiceP_mem (l : List String) (r : RandState) (h : l ≠ []) :
    (choiceP l r).1 ∈ l := choicePD_mem l "" r h

theorem sampleP_length (l : List String) (k : Nat) (r : RandState) :
    (sampleP l k r).1.length = min k l.length := by
  induction k generalizing l r with
  | zero => simp [sampleP]
  | succ k ih =>
    unfold sampleP
    by_cases h : l.isEmpty
    · rw [List.isEmpty_iff.mp h]
      simp
    · have hne : l ≠ [] := fun he => h (by simp [he])
      have hlen : 0 < l.length := List.length_pos.mpr hne
      have hi : r.d % l.length < l.length := Nat.mod_lt _ hlen
      simp only [h, Bool.false_eq_true, if_false, List.length_cons, ih]
      rw [List.length_eraseIdx_of_lt hi]
      omega

theorem sampleP_subset (l : List String) (k : Nat) (r : RandState) :
    ∀ x ∈ (sampleP l k r).1, x ∈ l := by
  induction k generalizing l r with
  | zero => simp [sampleP]
  | succ k ih =>
    unfold sampleP
    by_cases h : l.isEmpty
    · simp [h]
    · have hne : l ≠ [] := fun he => h (by simp [he])
      have hlen : 0 < l.length := List.length_pos.mpr hne
      have hi : r.d % l.length < l.length := Nat.mod_lt _ hlen
      simp only [h, Bool.false_eq_true, if_false, List.mem_cons]
      intro x hx
      rcases hx with hx | hx
      · rw [hx, List.getD_eq_getElem l "" hi]
        exact List.getElem_mem hi
      · exact (List.eraseIdx_sublist l (r.d % l.length)).mem (ih _ _ x hx)

theorem getElem_notMem_eraseIdx_of_nodup (l : List String) (i : Nat)
    (hl : l.Nodup) (h : i < l.length) : l[i] ∉ l.eraseIdx i := by
  rw [List.eraseIdx_eq_take_drop_succ]
  intro hm
  rcases List.mem_append.mp hm with hm | hm
  · rcases List.mem_take_iff_getElem.mp hm with ⟨j, hj, he⟩
    have hj2 : j < l.length := by omega
    have := (List.Nodup.getElem_inj_iff hl).mp he
    omega
  · rcases List.mem_drop_iff_getElem.mp hm with ⟨j, hj, he⟩
    have := (List.Nodup.getElem_inj_iff hl).mp he.symm
    omega

theorem sampleP_nodup (l : List String) (k : Nat) (r : RandState)
    (hl : l.Nodup) : (sampleP l k r).1.Nodup := by
  induction k generalizing l r with
  | zero => simp [sampleP]
  | succ k ih =>
    unfold sampleP
    by_cases h : l.isEmpty
    · simp [h]
    · have hne : l ≠ [] := fun he => h (by simp [he])
      have hlen : 0 < l.length := List.length_pos.mpr hne
      have hi : r.d % l.length < l.length := Nat.mod_lt _ hlen
      simp only [h, Bool.false_eq_true, if_false, List.nodup_cons]
      refine ⟨fun hmem => ?_, ih _ _ ((List.eraseIdx_sublist l _).nodup hl)⟩
      have hx := sampleP_subset (l.eraseIdx (r.d % l.length)) k r.adv _ hmem
      rw [List.getD_eq_getElem l "" hi] at hx
      exact getElem_notMem_eraseIdx_of_nodup l _ hl hi hx

/-! Association-list (Python dict) lookup facts. -/

theorem lookup_append {β : Type} (l1 l2 : List (String × β)) (k : String) :
    (l1 ++ l2).lookup k = ((l1.lookup k).or (l2.lookup k)) := by
  induction l1 with
  | nil => simp [List.lookup]
  | cons a t ih =>
    simp only [List.cons_append, List.lookup]
    split <;> simp [ih]

theorem lookup_eq_none_of_not_mem_keys {β : Type} (l : List (String × β))
    (k : String) (h : k ∉ l.map Prod.fst) : l.lookup k = none := by
  induction l with
  | nil => rfl
  | cons a t ih =>
    simp only [List.map_cons, List.mem_cons] at h
    push_neg at h
    simp only [List.lookup]
    have : (k == a.1) = false := beq_eq_false_iff_ne.mpr h.1
    rw [this]
    exact ih h.2

theorem lookup_append_singleton_self {β : Type} (l : List (String × β))
    (k : String) (v : β) (h : k ∉ l.map Prod.fst) :
    (l ++ [(k, v)]).lookup k = some v := by
  rw [lookup_append, lookup_eq_none_of_not_mem_keys l k h]
  simp [List.lookup]

theorem lookup_append_singleton_other {β : Type} (l : List (String × β))
    (k k0 : String) (v : β) (h : k ≠ k0) :
    (l ++ [(k0, v)]).lookup k = l.lookup k := by
  rw [lookup_append]
  cases hc : l.lookup k
  · simp [List.lookup, beq_eq_false_iff_ne.mpr h]
  · rfl

namespace Profile

theorem profileAux_cons (q : Question) (qs : List Question) (c : Ctx)
    (r : RandState) (u : UuidState) :
    profileAux (q :: qs) c r u =
      profileAux qs (c ++ [(q.id, (stepOut q c r u).1)])
        (stepOut q c r u).2.1 (stepOut q c r u).2.2 := rfl

theorem profileAux_length (qs : List Question) (c : Ctx) (r : RandState)
    (u : UuidState) : (profileAux qs c r u).1.length = c.length + qs.length := by
  induction qs generalizing c r u with
  | nil => simp [profileAux]
  | cons q qs ih =>
    rw [profileAux_cons, ih]
    simp only [List.length_append, List.length_cons, List.length_nil]
    omega

theorem profileAux_map_fst (qs : List Question) (c : Ctx) (r : RandState)
    (u : UuidState) :
    (profileAux qs c r u).1.map Prod.fst = c.map Prod.fst ++ qs.map Question.id := by
  induction qs generalizing c r u with
  | nil => simp [profileAux]
  | cons q qs ih =>
    rw [profileAux_cons, ih]
    simp

theorem profileAux_getElem?_lt (qs : List Question) (cx : Ctx) (r : RandState)
    (u : UuidState) (j : Nat) (h : j < cx.length) :
    ((profileAux qs cx r u).1)[j]? = cx[j]? := by
  induction qs generalizing cx r u with
  | nil => rfl
  | cons q qs ih =>
    rw [profileAux_cons,
      ih _ _ _ (by simp only [List.length_append, List.length_cons]; omega)]
    exact List.getElem?_append_left h

theorem profileAux_getElem? (qs : List Question) (cx : Ctx) (r : RandState)
    (u : UuidState) (i : Nat) (h : i < qs.length) :
    ((profileAux qs cx r u).1)[cx.length + i]? =
      some ((qs.get ⟨i, h⟩).id,
        (stepOut (qs.get ⟨i, h⟩) (profileAux (qs.take i) cx r u).1
          (profileAux (qs.take i) cx r u).2.1
          (profileAux (qs.take i) cx r u).2.2).1) := by
  induction qs generalizing cx r u i with
  | nil => exact absurd h (by simp)
  | cons q qs ih =>
    cases i with
    | zero =>
      rw [profileAux_cons, Nat.add_zero]
      rw [profileAux_getElem?_lt qs (cx ++ [(q.id, (stepOut q cx r u).1)])
        (stepOut q cx r u).2.1 (stepOut q cx r u).2.2 cx.length
        (by simp only [List.length_append, List.length_cons]; omega)]
      rw [List.getElem?_append_right (Nat.le_refl _)]
      simp [profileAux]
    | succ i =>
      rw [profileAux_cons]
      have hlen : cx.length + (i + 1) =
          (cx ++ [(q.id, (stepOut q cx r u).1)]).length + i := by
        simp only [List.length_append, List.length_cons, List.length_nil]
        omega
      rw [hlen, ih _ _ _ i (by simpa using h)]
      simp [profileAux_cons]

end Profile

namespace Profile

/-- A question's stored value is `None` exactly when its condition failed
against the context so far, or it was optional and the inclusion draw
exceeded the chance. -/
theorem stepOut_none_iff (q : Question) (cx : Ctx) (r : RandState)
    (u : UuidState) :
    (stepOut q cx r u).1 = none ↔
      (evaluate_condition q.condition cx = false ∨
       (q.optional_chance < 1 ∧ q.optional_chance < (unitP r).1)) := by
  unfold stepOut
  by_cases hc : evaluate_condition q.condition cx
  · rw [if_pos hc]
    by_cases ho : q.optional_chance < 1
    · rw [if_pos ho]
      by_cases hx : q.optional_chance < (unitP r).1
      · simp [hx, hc, ho]
      · simp [hx, hc, ho]
    · simp [ho, hc]
  · rw [if_neg hc]
    simp only [Bool.not_eq_true] at hc
    simp [hc]

theorem generate_profile_getElem (qs : List Question) (r : RandState)
    (u : UuidState) (i : Nat) (h : i < qs.length) :
    ((generate_profile qs r u).1)[i]? =
      some ((qs.get ⟨i, h⟩).id,
        (stepOut (qs.get ⟨i, h⟩) (reachState qs r u i).1
          (reachState qs r u i).2.1 (reachState qs r u i).2.2).1) := by
  have := profileAux_getElem? qs [] r u i h
  simpa [reachState, generate_profile] using this

end Profile

namespace TaskReq

theorem processFields_cons (gate : TField → Ctx → RandState → Bool × RandState)
    (f : TField) (fs : List TField) (cx : Ctx) (r : RandState) (u : UuidState) :
    processFields gate (f :: fs) cx r u =
      processFields gate fs (cx ++ [(f.id, (fieldStep gate f cx r u).1)])
        (fieldStep gate f cx r u).2.1 (fieldStep gate f cx r u).2.2 := rfl

theorem processFields_length (gate : TField → Ctx → RandState → Bool × RandState)
    (fs : List TField) (cx : Ctx) (r : RandState) (u : UuidState) :
    (processFields gate fs cx r u).1.length = cx.length + fs.length := by
  induction fs generalizing cx r u with
  | nil => simp [processFields]
  | cons f fs ih =>
    rw [processFields_cons, ih]
    simp only [List.length_append, List.length_cons, List.length_nil]
    omega

theorem processFields_map_fst (gate : TField → Ctx → RandState → Bool × RandState)
    (fs : List TField) (cx : Ctx) (r : RandState) (u : UuidState) :
    (processFields gate fs cx r u).1.map Prod.fst =
      cx.map Prod.fst ++ fs.map TField.id := by
  induction fs generalizing cx r u with
  | nil => simp [processFields]
  | cons f fs ih =>
    rw [processFields_cons, ih]
    simp

theorem processFields_getElem?_lt
    (gate : TField → Ctx → RandState → Bool × RandState)
    (fs : List TField) (cx : Ctx) (r : RandState) (u : UuidState) (j : Nat)
    (h : j < cx.length) :
    ((processFields gate fs cx r u).1)[j]? = cx[j]? := by
  induction fs generalizing cx r u with
  | nil => rfl
  | cons f fs ih =>
    rw [processFields_cons,
      ih _ _ _ (by simp only [List.length_append, List.length_cons]; omega)]
    exact List.getElem?_append_left h

theorem processFields_getElem?
    (gate : TField → Ctx → RandState → Bool × RandState)
    (fs : List TField) (cx : Ctx) (r : RandState) (u : UuidState) (i : Nat)
    (h : i < fs.length) :
    ((processFields gate fs cx r u).1)[cx.length + i]? =
      some ((fs.get ⟨i, h⟩).id,
        (fieldStep gate (fs.get ⟨i, h⟩) (processFields gate (fs.take i) cx r u).1
          (processFields gate (fs.take i) cx r u).2.1
          (processFields gate (fs.take i) cx r u).2.2).1) := by
  induction fs generalizing cx r u i with
  | nil => exact absurd h (by simp)
  | cons f fs ih =>
    cases i with
    | zero =>
      rw [processFields_cons, Nat.add_zero]
      rw [processFields_getElem?_lt gate fs
        (cx ++ [(f.id, (fieldStep gate f cx r u).1)])
        (fieldStep gate f cx r u).2.1 (fieldStep gate f cx r u).2.2 cx.length
        (by simp only [List.length_append, List.length_cons]; omega)]
      rw [List.getElem?_append_right (Nat.le_refl _)]
      simp [processFields]
    | succ i =>
      rw [processFields_cons]
      have hlen : cx.length + (i + 1) =
          (cx ++ [(f.id, (fieldStep gate f cx r u).1)]).length + i := by
        simp only [List.length_append, List.length_cons, List.length_nil]
        omega
      rw [hlen, ih _ _ _ i (by simpa using h)]
      simp [processFields_cons]

/-- A field's stored value is `None` exactly when its gate said not to
simulate it. -/
theorem fieldStep_none_iff (gate : TField → Ctx → RandState → Bool × RandState)
    (f : TField) (cx : Ctx) (r : RandState) (u : UuidState) :
    (fieldStep gate f cx r u).1 = none ↔ (gate f cx r).1 = false := by
  unfold fieldStep
  by_cases hg : (gate f cx r).1 <;> simp [hg]

end TaskReq

theorem pyStrIn_iff (rv : Value) (vs : List String) :
    Profile.pyStrIn rv vs = true ↔ ∃ s, rv = Value.str s ∧ s ∈ vs := by
  cases rv <;> simp [Profile.pyStrIn]

/-- C9: every record generated by `generate_profile` contains exactly one
entry for every field id of `FORM_STRUCTURE`, inserted in schema order, and
no other keys; no field is ever omitted. -/
theorem claim_C9_record_keys (r : RandState) (u : UuidState) :
    ((Profile.generate_profile Profile.FORM_STRUCTURE r u).1).map Prod.fst =
      Profile.FORM_STRUCTURE.map Profile.Question.id ∧
    (Profile.FORM_STRUCTURE.map Profile.Question.id).Nodup := by
  refine ⟨?_, by decide⟩
  have := Profile.profileAux_map_fst Profile.FORM_STRUCTURE [] r u
  simpa [Profile.generate_profile] using this

/-- C2: both condition evaluators return true exactly when the condition is
absent, or the prerequisite is present and non-null and the operator
comparison holds; in every other case (missing or null prerequisite,
non-sequence comparison value for a membership operator, unknown operator,
or the dead exception arm) they return false, and the two files' evaluators
agree. -/
theorem claim_C2_evaluate_condition (condition : Option (String × String × Value))
    (cx : Ctx) :
    (Profile.evaluate_condition condition cx = true ↔ CondTrueSpec condition cx) ∧
    TaskReq.evaluate_condition condition cx = Profile.evaluate_condition condition cx := by
  refine ⟨?_, rfl⟩
  unfold Profile.evaluate_condition CondTrueSpec
  match condition with
  | none => simp
  | some (q, op, v) =>
    simp only [Option.some.injEq, Prod.mk.injEq, reduceCtorEq, false_or]
    cases hl : cx.lookup q with
    | none =>
      constructor
      · intro h; exact absurd h (by simp)
      · rintro ⟨q2, op2, v2, rv2, ⟨hq, hop, hv⟩, hlook, _⟩
        rw [← hq, hl] at hlook
        exact absurd hlook (by simp)
    | some ov =>
      cases ov with
      | none =>
        constructor
        · intro h; exact absurd h (by simp)
        · rintro ⟨q2, op2, v2, rv2, ⟨hq, hop, hv⟩, hlook, _⟩
          rw [← hq, hl] at hlook
          exact absurd hlook (by simp)
      | some rv =>
        have hiff : ∀ (P : Prop), (P ↔
            ∃ q2 op2 v2 rv2, (q = q2 ∧ op = op2 ∧ v = v2) ∧
              cx.lookup q2 = some (some rv2) ∧ CondOpHolds op2 rv2 v2) ↔
            (P ↔ CondOpHolds op rv v) := by
          intro P
          constructor
          · intro h
            rw [h]
            constructor
            · rintro ⟨q2, op2, v2, rv2, ⟨hq, hop, hv⟩, hlook, hh⟩
              rw [← hq, hl] at hlook
              obtain rfl : rv = rv2 := by simpa using hlook
              rw [hop, hv]; exact hh
            · intro hh
              exact ⟨q, op, v, rv, ⟨rfl, rfl, rfl⟩, hl, hh⟩
          · intro h
            rw [h]
            constructor
            · intro hh
              exact ⟨q, op, v, rv, ⟨rfl, rfl, rfl⟩, hl, hh⟩
            · rintro ⟨q2, op2, v2, rv2, ⟨hq, hop, hv⟩, hlook, hh⟩
              rw [← hq, hl] at hlook
              obtain rfl : rv = rv2 := by simpa using hlook
              rw [hop, hv]; exact hh
        rw [hiff]
        dsimp only
        by_cases h1 : op = "=="
        · simp only [h1, if_pos rfl]
          simp [CondOpHolds, decide_eq_true_iff]
        · rw [if_neg h1]
          by_cases h2 : op = "!="
          · simp only [h2, if_pos rfl]
            simp [CondOpHolds, h2, decide_eq_true_iff]
          · rw [if_neg h2]
            by_cases h3 : op = "in"
            · simp only [h3, if_pos rfl]
              cases v with
              | str s => simp [Profile.seqMem, CondOpHolds, CondMem, h3]
              | bool b => simp [Profile.seqMem, CondOpHolds, CondMem, h3]
              | list vs =>
                simp [Profile.seqMem, CondOpHolds, CondMem, h3, pyStrIn_iff]
              | items its => simp [Profile.seqMem, CondOpHolds, CondMem, h3]
            · rw [if_neg h3]
              by_cases h4 : op = "not in"
              · simp only [h4, if_pos rfl]
                cases v with
                | str s => simp [Profile.seqMem, CondOpHolds, CondMem, CondSeq, h4]
                | bool b => simp [Profile.seqMem, CondOpHolds, CondMem, CondSeq, h4]
                | list vs =>
                  simp only [Profile.seqMem]
                  constructor
                  · intro hb
                    refine Or.inr (Or.inr (Or.inr ⟨rfl, Or.inl ⟨vs, rfl⟩, ?_⟩))
                    intro hm
                    rcases hm with ⟨vs2, s, hv, hrv, hs⟩
                    obtain rfl : vs = vs2 := by simpa using hv
                    have : Profile.pyStrIn rv vs = true :=
                      (pyStrIn_iff rv vs).mpr ⟨s, hrv, hs⟩
                    rw [this] at hb
                    simp at hb
                  · rintro (⟨ha, _⟩ | ⟨ha, _⟩ | ⟨ha, _⟩ | ⟨_, _, hnm⟩)
                    · exact absurd ha (by decide)
                    · exact absurd ha (by decide)
                    · exact absurd ha (by decide)
                    · have : Profile.pyStrIn rv vs = false := by
                        by_contra hx
                        rw [Bool.not_eq_false] at hx
                        rcases (pyStrIn_iff rv vs).mp hx with ⟨s, hrv, hs⟩
                        exact hnm ⟨vs, s, rfl, hrv, hs⟩
                      rw [this]
                      rfl
                | items its =>
                  simp [Profile.seqMem, CondOpHolds, CondMem, CondSeq, h4]
              · rw [if_neg h4]
                simp [CondOpHolds, h1, h2, h3, h4]

/-- C6 (amended): in `profile_generation.py`, a shown long-text field is the
empty string exactly when the first unit draw falls below 0.1; otherwise the
result is a non-empty phrase. -/
theorem claim_C6_text_area_empty_iff (qid : String) (r : RandState)
    (u : UuidState) :
    (Profile.simulate_text_area qid r u).1 = "" ↔ (unitP r).1 < mkRat 1 10 := by
  unfold Profile.simulate_text_area
  by_cases hx : (unitP r).1 < mkRat 1 10
  · simp [hx]
  · simp only [hx, if_false]
    constructor
    · intro he
      have hlen := congrArg String.length he
      rw [String.length_append, String.length_append, String.length_append] at hlen
      have h1 : (")" : String).length = 1 := rfl
      have h0 : ("" : String).length = 0 := rfl
      rw [h1, h0] at hlen
      omega
    · intro h
      exact h.elim

set_option maxHeartbeats 2000000 in
/-- C6 counterexample: the task-request simulator's long-text branch has no
empty-string draw: on the Lifestyle `scene_desc` field, with a random stream
whose unit draw is 0 (below 0.1), it still returns a non-empty snippet, so
"empty iff the draw is below 0.1" fails there. -/
theorem claim_C6_counterexample :
    TaskReq.sceneDescField.ftype = "text_area" ∧
    (unitP (rConst 0)).1 < mkRat 1 10 ∧
    (TaskReq.simulate_field_value TaskReq.sceneDescField [] (rConst 0) (uConst 0)).1 =
      Value.str "Friends laughing together sharing pizza outdoors at sunset." ∧
    Value.str "Friends laughing together sharing pizza outdoors at sunset." ≠
      Value.str "" := by
  refine ⟨rfl, by decide, ?_, by decide⟩
  rfl

theorem datasetLoop_succ_fst (n : Nat) (r : RandState) (u : UuidState) :
    (Profile.datasetLoop (n + 1) r u).1 =
      (Profile.generate_profile Profile.FORM_STRUCTURE r u).1 ::
        (Profile.datasetLoop n
          (Profile.generate_profile Profile.FORM_STRUCTURE r u).2.1
          (Profile.generate_profile Profile.FORM_STRUCTURE r u).2.2).1 := rfl

theorem taskLoop_succ_fst (n : Nat) (r : RandState) (u : UuidState) :
    (TaskReq.taskLoop (n + 1) r u).1 =
      (TaskReq.generate_task_request r u).1 ::
        (TaskReq.taskLoop n
          (TaskReq.generate_task_request r u).2.1
          (TaskReq.generate_task_request r u).2.2).1 := rfl

theorem datasetLoop_length (n : Nat) (r : RandState) (u : UuidState) :
    (Profile.datasetLoop n r u).1.length = n := by
  induction n generalizing r u with
  | zero => rfl
  | succ n ih => rw [datasetLoop_succ_fst]; simp [ih]

theorem taskLoop_length (n : Nat) (r : RandState) (u : UuidState) :
    (TaskReq.taskLoop n r u).1.length = n := by
  induction n generalizing r u with
  | zero => rfl
  | succ n ih => rw [taskLoop_succ_fst]; simp [ih]

set_option maxHeartbeats 1000000 in
theorem datasetLoop_mem (n : Nat) (r : RandState) (u : UuidState) :
    ∀ p ∈ (Profile.datasetLoop n r u).1, ∃ r2 u2,
      p = (Profile.generate_profile Profile.FORM_STRUCTURE r2 u2).1 := by
  induction n generalizing r u with
  | zero => simp [Profile.datasetLoop]
  | succ n ih =>
    rw [datasetLoop_succ_fst]
    intro p hp
    rcases List.mem_cons.mp hp with hp | hp
    · exact ⟨r, u, hp⟩
    · exact ih _ _ p hp

set_option maxHeartbeats 1000000 in
theorem taskLoop_mem (n : Nat) (r : RandState) (u : UuidState) :
    ∀ p ∈ (TaskReq.taskLoop n r u).1, ∃ r2 u2,
      p = (TaskReq.generate_task_request r2 u2).1 := by
  induction n generalizing r u with
  | zero => simp [TaskReq.taskLoop]
  | succ n ih =>
    rw [taskLoop_succ_fst]
    intro p hp
    rcases List.mem_cons.mp hp with hp | hp
    · exact ⟨r, u, hp⟩
    · exact ih _ _ p hp

/-- C5: requesting fewer than one record returns the empty list without
raising, for both generators; for n ≥ 1 exactly n records are produced, each
one the output of its own single-record generator call (the only state
passed between the calls is the position of the two random streams). -/
theorem claim_C5_dataset_size (n : Int) (r : RandState) (u : UuidState) :
    (n < 1 →
      (Profile.generate_simulation_dataset n r u).1 = [] ∧
      (TaskReq.generate_simulation_dataset n r u).1 = []) ∧
    (1 ≤ n →
      ((Profile.generate_simulation_dataset n r u).1.length : Int) = n ∧
      ((TaskReq.generate_simulation_dataset n r u).1.length : Int) = n ∧
      (∀ p ∈ (Profile.generate_simulation_dataset n r u).1, ∃ r2 u2,
        p = (Profile.generate_profile Profile.FORM_STRUCTURE r2 u2).1) ∧
      (∀ p ∈ (TaskReq.generate_simulation_dataset n r u).1, ∃ r2 u2,
        p = (TaskReq.generate_task_request r2 u2).1)) := by
  constructor
  · intro hn
    unfold Profile.generate_simulation_dataset TaskReq.generate_simulation_dataset
    rw [if_pos hn, if_pos hn]
    exact ⟨rfl, rfl⟩
  · intro hn
    have hn2 : ¬ n < 1 := by omega
    unfold Profile.generate_simulation_dataset TaskReq.generate_simulation_dataset
    rw [if_neg hn2, if_neg hn2]
    refine ⟨?_, ?_, datasetLoop_mem _ _ _, taskLoop_mem _ _ _⟩
    · rw [datasetLoop_length]
      omega
    · rw [taskLoop_length]
      omega

/-- C5 witness: at n = 0 both datasets are empty; at n = 2 both have exactly
two records. -/
theorem claim_C5_witness :
    ((0 : Int) < 1 ∧
      (Profile.generate_simulation_dataset 0 (rConst 0) (uConst 0)).1 = [] ∧
      (TaskReq.generate_simulation_dataset 0 (rConst 0) (uConst 0)).1 = []) ∧
    ((1 : Int) ≤ 2 ∧
      ((Profile.generate_simulation_dataset 2 (rConst 0) (uConst 0)).1.length : Int) = 2) := by
  constructor
  · exact ⟨by decide, (claim_C5_dataset_size 0 (rConst 0) (uConst 0)).1 (by decide)⟩
  · exact ⟨by decide, ((claim_C5_dataset_size 2 (rConst 0) (uConst 0)).2 (by decide)).1⟩

theorem ne_empty_of_length_pos (s : String) (h : 0 < s.length) : s ≠ "" := by
  intro he
  rw [he] at h
  exact absurd h (by decide)

theorem twoDigit_len : ∀ m, m < 100 →
    ((if m < 10 then "0" else "") ++ toString m).length = 2 := by decide

theorem formatCents_shape (c : Nat) :
    ∃ (w : Nat) (fr : String), TaskReq.formatCents c = toString w ++ "." ++ fr ∧ fr.length = 2 := by
  refine ⟨c / 100, (if c % 100 < 10 then "0" else "") ++ toString (c % 100), ?_, ?_⟩
  · unfold TaskReq.formatCents
    rw [String.append_assoc]
  · exact twoDigit_len (c % 100) (Nat.mod_lt _ (by norm_num))

theorem menuItems_length (n : Nat) (b : Bool) (r : RandState) (u : UuidState) :
    (TaskReq.menuItems n b r u).1.length = n := by
  induction n generalizing r u with
  | zero => rfl
  | succ n ih =>
    unfold TaskReq.menuItems
    cases b <;> simp [ih]

theorem menuItems_item (n : Nat) (b : Bool) (r : RandState) (u : UuidState) :
    ∀ it ∈ (TaskReq.menuItems n b r u).1,
      it.itemName ≠ "" ∧
      it.briefDescription.isSome = b ∧
      ∃ cents, 800 ≤ cents ∧ cents ≤ 7500 ∧
        it.price = "RM" ++ TaskReq.formatCents cents := by
  induction n generalizing r u with
  | zero => simp [TaskReq.menuItems]
  | succ n ih =>
    unfold TaskReq.menuItems
    have hname : ∀ (a o d h : String),
        (a ++ " " ++ o ++ " " ++ d ++ " " ++ h) ≠ "" := by
      intro a o d h
      apply ne_empty_of_length_pos
      simp only [String.length_append]
      have h1 : (" " : String).length = 1 := rfl
      rw [h1]
      omega
    have hcents := randintP_bounds 800 7500
    cases b with
    | false =>
      simp only [if_false, Bool.false_eq_true]
      intro it hit
      rcases List.mem_cons.mp hit with hit | hit
      · rw [hit]
        exact ⟨hname _ _ _ _, rfl,
          ⟨_, (hcents _ (by norm_num)).1, (hcents _ (by norm_num)).2, rfl⟩⟩
      · exact ih _ _ it hit
    | true =>
      simp only [if_true]
      intro it hit
      rcases List.mem_cons.mp hit with hit | hit
      · rw [hit]
        exact ⟨hname _ _ _ _, rfl,
          ⟨_, (hcents _ (by norm_num)).1, (hcents _ (by norm_num)).2, rfl⟩⟩
      · exact ih _ _ it hit

/-- C7: a simulated structured-list field is a list of between min and max
items (bounds read with the source defaults); every item has a non-empty
name and a price of the form `RM` + number + `.` + exactly two digits, in
the cent range of `uniform(8.0, 75.0)`; description presence is uniform
across the list, decided by the single per-list draw. -/
theorem claim_C7_structured_list (f : TaskReq.TField) (cx : Ctx)
    (r : RandState) (u : UuidState)
    (hf : f.ftype = "structured_list")
    (hminmax : f.min_items.getD 1 ≤ f.max_items.getD 3) :
    ∃ its, (TaskReq.simulate_field_value f cx r u).1 = Value.items its ∧
      f.min_items.getD 1 ≤ its.length ∧ its.length ≤ f.max_items.getD 3 ∧
      (∃ inc : Bool, ∀ it ∈ its, it.briefDescription.isSome = inc) ∧
      ∀ it ∈ its, it.itemName ≠ "" ∧
        ∃ cents, 800 ≤ cents ∧ cents ≤ 7500 ∧
          it.price = "RM" ++ TaskReq.formatCents cents ∧
          ∃ (w : Nat) (fr : String),
            TaskReq.formatCents cents = toString w ++ "." ++ fr ∧
            fr.length = 2 := by
  unfold TaskReq.simulate_field_value
  rw [hf]
  simp only [String.reduceEq, if_false, or_self, or_false, false_or]
  refine ⟨_, rfl, ?_, ?_, ?_, ?_⟩
  · rw [menuItems_length]
    exact (randintP_bounds _ _ r hminmax).1
  · rw [menuItems_length]
    exact (randintP_bounds _ _ r hminmax).2
  · exact ⟨_, fun it hit => (menuItems_item _ _ _ _ it hit).2.1⟩
  · intro it hit
    rcases menuItems_item _ _ _ _ it hit with ⟨hn, _, cents, hc1, hc2, hp⟩
    exact ⟨hn, cents, hc1, hc2, hp, formatCents_shape cents⟩

/-- C7 witness: the Menu Display `menu_items` field (bounds [1,5]) at
concrete streams. -/
theorem claim_C7_witness :
    TaskReq.menuItemsField.ftype = "structured_list" ∧
    TaskReq.menuItemsField.min_items.getD 1 ≤ TaskReq.menuItemsField.max_items.getD 3 ∧
    ∃ its, (TaskReq.simulate_field_value TaskReq.menuItemsField [] (rConst 0) (uConst 0)).1 =
        Value.items its ∧
      TaskReq.menuItemsField.min_items.getD 1 ≤ its.length ∧
      its.length ≤ TaskReq.menuItemsField.max_items.getD 3 ∧
      (∃ inc : Bool, ∀ it ∈ its, it.briefDescription.isSome = inc) ∧
      ∀ it ∈ its, it.itemName ≠ "" ∧
        ∃ cents, 800 ≤ cents ∧ cents ≤ 7500 ∧
          it.price = "RM" ++ TaskReq.formatCents cents ∧
          ∃ (w : Nat) (fr : String),
            TaskReq.formatCents cents = toString w ++ "." ++ fr ∧
            fr.length = 2 :=
  ⟨rfl, by decide,
    claim_C7_structured_list TaskReq.menuItemsField [] (rConst 0) (uConst 0) rfl (by decide)⟩

/-- C4: the field simulators are total (they never raise out of the model):
an unknown field kind or a single-choice field with no options yields the
sentinel error string as the field's value, in both generators, and the
record is still produced in full — one entry per schema field regardless of
such errors. -/
theorem claim_C4_error_sentinels :
    (∀ (q : Profile.Question) (r : RandState) (u : UuidState),
      q.qtype ∉ ["dropdown", "radio", "checkbox", "text", "text_area",
        "file_upload", "color_picker"] →
      (Profile.simulateAnswer q r u).1 =
        Value.str ("Error: Unknown Type \x27" ++ q.qtype ++ "\x27")) ∧
    (∀ (q : Profile.Question) (r : RandState) (u : UuidState),
      (q.qtype = "dropdown" ∨ q.qtype = "radio") → q.options = [] →
      (Profile.simulateAnswer q r u).1 = Value.str "Error: No Options Defined") ∧
    (∀ (f : TaskReq.TField) (cx : Ctx) (r : RandState) (u : UuidState),
      f.ftype ∉ ["text", "text_area", "tags", "checkbox", "dropdown",
        "dropdown_visual", "dropdown_text", "checkbox_bool", "structured_list",
        "file_upload"] →
      (TaskReq.simulate_field_value f cx r u).1 =
        Value.str ("Error: Unknown Type \x27" ++ f.ftype ++ "\x27")) ∧
    (∀ (f : TaskReq.TField) (cx : Ctx) (r : RandState) (u : UuidState),
      (f.ftype = "dropdown" ∨ f.ftype = "dropdown_visual") → f.options = [] →
      (TaskReq.simulate_field_value f cx r u).1 = Value.str "Error: No Options") ∧
    (∀ (r : RandState) (u : UuidState),
      (Profile.generate_profile Profile.FORM_STRUCTURE r u).1.length =
        Profile.FORM_STRUCTURE.length) ∧
    (∀ (gate : TaskReq.TField → Ctx → RandState → Bool × RandState)
      (fs : List TaskReq.TField) (cx : Ctx) (r : RandState) (u : UuidState),
      (TaskReq.processFields gate fs cx r u).1.length = cx.length + fs.length) := by
  refine ⟨?_, ?_, ?_, ?_, ?_, TaskReq.processFields_length⟩
  · intro q r u h
    simp only [List.mem_cons, List.mem_singleton, not_or] at h
    obtain ⟨h1, h2, h3, h4, h5, h6, h7, -⟩ := h
    simp [Profile.simulateAnswer, h1, h2, h3, h4, h5, h6, h7]
  · intro q r u hd hopt
    rcases hd with hd | hd <;>
      simp [Profile.simulateAnswer, hd, hopt]
  · intro f cx r u h
    simp only [List.mem_cons, List.mem_singleton, not_or] at h
    obtain ⟨h1, h2, h3, h4, h5, h6, h7, h8, h9, h10, -⟩ := h
    simp [TaskReq.simulate_field_value, h1, h2, h3, h4, h5, h6, h7, h8, h9, h10]
  · intro f cx r u hd hopt
    rcases hd with hd | hd <;>
      simp [TaskReq.simulate_field_value, hd, hopt]
  · intro r u
    have := Profile.profileAux_length Profile.FORM_STRUCTURE [] r u
    simpa [Profile.generate_profile] using this

/-- C4 witness: concrete unknown-kind and optionless fields at concrete
streams. -/
theorem claim_C4_witness :
    (Profile.qUnknown.qtype ∉ (["dropdown", "radio", "checkbox", "text",
        "text_area", "file_upload", "color_picker"] : List String) ∧
      (Profile.simulateAnswer Profile.qUnknown (rConst 0) (uConst 0)).1 =
        Value.str ("Error: Unknown Type \x27" ++ Profile.qUnknown.qtype ++ "\x27")) ∧
    ((Profile.qNoOptions.qtype = "dropdown" ∨ Profile.qNoOptions.qtype = "radio") ∧
      Profile.qNoOptions.options = [] ∧
      (Profile.simulateAnswer Profile.qNoOptions (rConst 0) (uConst 0)).1 =
        Value.str "Error: No Options Defined") ∧
    ((TaskReq.simulate_field_value TaskReq.fUnknown [] (rConst 0) (uConst 0)).1 =
        Value.str ("Error: Unknown Type \x27" ++ TaskReq.fUnknown.ftype ++ "\x27")) ∧
    ((TaskReq.simulate_field_value TaskReq.fNoOptions [] (rConst 0) (uConst 0)).1 =
        Value.str "Error: No Options") := by
  refine ⟨⟨by decide, ?_⟩, ⟨Or.inl rfl, rfl, ?_⟩, ?_, ?_⟩
  · exact claim_C4_error_sentinels.1 Profile.qUnknown (rConst 0) (uConst 0) (by decide)
  · exact claim_C4_error_sentinels.2.1 Profile.qNoOptions (rConst 0) (uConst 0)
      (Or.inl rfl) rfl
  · exact claim_C4_error_sentinels.2.2.1 TaskReq.fUnknown [] (rConst 0) (uConst 0)
      (by decide)
  · exact claim_C4_error_sentinels.2.2.2.1 TaskReq.fNoOptions [] (rConst 0) (uConst 0)
      (Or.inl rfl) rfl

/-- C3 counterexample: the task-request simulator's multi-select draw starts
at 0 for a non-required field, not 1. On an optional tags field with two
options and effective maximum 3, a zero draw yields the empty list, although
the claim requires a selection count in [1, 2]. -/
theorem claim_C3_counterexample :
    TaskReq.cexTagsField.options ≠ [] ∧
    0 < TaskReq.maxSelectOf TaskReq.cexTagsField ∧
    (TaskReq.simulate_field_value TaskReq.cexTagsField [] (rConst 0) (uConst 0)).1 =
      Value.list [] := by
  refine ⟨by decide, by decide, rfl⟩


theorem isEmpty_false_of_ne_nil {α : Type} (l : List α) (h : l ≠ []) :
    l.isEmpty = false := by
  cases hoo : l with
  | nil => exact absurd hoo h
  | cons a t => rfl

/-- C3 (amended): for the onboarding generator a shown checkbox field with
options and a positive maximum yields between 1 and min(max, optionCount)
distinct options; for the task-request generator the lower bound of the
draw is 1 only when the field is required (an optional multi-select field
may yield the empty list even with options available), and in all cases the
result is a duplicate-free (when the option list is) sub-selection of the
options, of size at most the effective maximum and at most the option
count, with an empty option list yielding the empty list rather than
null. -/
theorem claim_C3_multi_choice :
    (∀ (q : Profile.Question) (r : RandState) (u : UuidState),
      q.qtype = "checkbox" → q.options ≠ [] →
      0 < q.max_select.getD q.options.length →
      ∃ l, (Profile.simulateAnswer q r u).1 = Value.list l ∧
        1 ≤ l.length ∧ l.length ≤ q.max_select.getD q.options.length ∧
        l.length ≤ q.options.length ∧ (q.options.Nodup → l.Nodup) ∧
        ∀ x ∈ l, x ∈ q.options) ∧
    (∀ (f : TaskReq.TField) (cx : Ctx) (r : RandState) (u : UuidState),
      (f.ftype = "tags" ∨ f.ftype = "checkbox") →
      ∃ l, (TaskReq.simulate_field_value f cx r u).1 = Value.list l ∧
        l.length ≤ TaskReq.maxSelectOf f ∧ l.length ≤ f.options.length ∧
        (f.options.Nodup → l.Nodup) ∧ (∀ x ∈ l, x ∈ f.options) ∧
        (f.options = [] → l = []) ∧
        (f.required = true → f.options ≠ [] → 0 < TaskReq.maxSelectOf f →
          1 ≤ l.length)) := by
  constructor
  · intro q r u hq hopt hmax
    have hlen : 0 < q.options.length := List.length_pos.mpr hopt
    have hempty : q.options.isEmpty = false := isEmpty_false_of_ne_nil _ hopt
    unfold Profile.simulateAnswer
    rw [hq]
    simp only [String.reduceEq, or_self, or_false, false_or, true_or, or_true,
      if_false, if_true, hempty, Bool.false_eq_true]
    rw [if_pos (show 0 < q.options.length ∧
      0 < q.max_select.getD q.options.length from ⟨hlen, hmax⟩)]
    have hub : 1 ≤ min (q.max_select.getD q.options.length) q.options.length := by
      omega
    rw [if_pos hub]
    have hk := randintP_bounds 1
      (min (q.max_select.getD q.options.length) q.options.length) r hub
    rw [if_pos (by omega)]
    refine ⟨_, rfl, ?_, ?_, ?_, fun hnd => sampleP_nodup _ _ _ hnd,
      sampleP_subset _ _ _⟩
    · rw [sampleP_length]; omega
    · rw [sampleP_length]; omega
    · rw [sampleP_length]; omega
  · intro f cx r u hf
    have hbody : ∀ (M : Nat),
        TaskReq.maxSelectOf f = M →
        ∀ (res : Value × RandState × UuidState),
        res = (if min M f.options.length <
            (if f.required = true ∧ ¬f.options.isEmpty = true then 1 else 0) then
            (Value.list [], r, u)
          else
            if 0 < (randintP
                (if f.required = true ∧ ¬f.options.isEmpty = true then 1 else 0)
                (min M f.options.length) r).1 then
              if ¬f.options.isEmpty = true then
                (Value.list (sampleP f.options
                  (randintP
                    (if f.required = true ∧ ¬f.options.isEmpty = true then 1 else 0)
                    (min M f.options.length) r).1
                  (randintP
                    (if f.required = true ∧ ¬f.options.isEmpty = true then 1 else 0)
                    (min M f.options.length) r).2).1,
                 (sampleP f.options
                  (randintP
                    (if f.required = true ∧ ¬f.options.isEmpty = true then 1 else 0)
                    (min M f.options.length) r).1
                  (randintP
                    (if f.required = true ∧ ¬f.options.isEmpty = true then 1 else 0)
                    (min M f.options.length) r).2).2, u)
              else
                (match f.snippets_key with
                 | some key =>
                   if ¬(TaskReq.CURATED_SNIPPETS key).isEmpty = true then
                     if 0 < min (randintP
                          (if f.required = true ∧ ¬f.options.isEmpty = true then 1 else 0)
                          (min M f.options.length) r).1
                         (TaskReq.CURATED_SNIPPETS key).length then
                       (Value.list (sampleP (TaskReq.CURATED_SNIPPETS key)
                         (min (randintP
                           (if f.required = true ∧ ¬f.options.isEmpty = true then 1 else 0)
                           (min M f.options.length) r).1
                          (TaskReq.CURATED_SNIPPETS key).length)
                         (randintP
                           (if f.required = true ∧ ¬f.options.isEmpty = true then 1 else 0)
                           (min M f.options.length) r).2).1,
                        (sampleP (TaskReq.CURATED_SNIPPETS key)
                         (min (randintP
                           (if f.required = true ∧ ¬f.options.isEmpty = true then 1 else 0)
                           (min M f.options.length) r).1
                          (TaskReq.CURATED_SNIPPETS key).length)
                         (randintP
                           (if f.required = true ∧ ¬f.options.isEmpty = true then 1 else 0)
                           (min M f.options.length) r).2).2, u)
                     else (Value.list [], (randintP
                       (if f.required = true ∧ ¬f.options.isEmpty = true then 1 else 0)
                       (min M f.options.length) r).2, u)
                   else if f.ftype = "tags" then
                     (Value.list (TaskReq.simTagList 0 (randintP
                       (if f.required = true ∧ ¬f.options.isEmpty = true then 1 else 0)
                       (min M f.options.length) r).1 u).1,
                      (randintP
                       (if f.required = true ∧ ¬f.options.isEmpty = true then 1 else 0)
                       (min M f.options.length) r).2,
                      (TaskReq.simTagList 0 (randintP
                       (if f.required = true ∧ ¬f.options.isEmpty = true then 1 else 0)
                       (min M f.options.length) r).1 u).2)
                   else (Value.list [], (randintP
                     (if f.required = true ∧ ¬f.options.isEmpty = true then 1 else 0)
                     (min M f.options.length) r).2, u)
                 | none =>
                   if f.ftype = "tags" then
                     (Value.list (TaskReq.simTagList 0 (randintP
                       (if f.required = true ∧ ¬f.options.isEmpty = true then 1 else 0)
                       (min M f.options.length) r).1 u).1,
                      (randintP
                       (if f.required = true ∧ ¬f.options.isEmpty = true then 1 else 0)
                       (min M f.options.length) r).2,
                      (TaskReq.simTagList 0 (randintP
                       (if f.required = true ∧ ¬f.options.isEmpty = true then 1 else 0)
                       (min M f.options.length) r).1 u).2)
                   else (Value.list [], (randintP
                     (if f.required = true ∧ ¬f.options.isEmpty = true then 1 else 0)
                     (min M f.options.length) r).2, u))
            else (Value.list [], (randintP
              (if f.required = true ∧ ¬f.options.isEmpty = true then 1 else 0)
              (min M f.options.length) r).2, u)) →
        ∃ l, res.1 = Value.list l ∧
          l.length ≤ TaskReq.maxSelectOf f ∧ l.length ≤ f.options.length ∧
          (f.options.Nodup → l.Nodup) ∧ (∀ x ∈ l, x ∈ f.options) ∧
          (f.options = [] → l = []) ∧
          (f.required = true → f.options ≠ [] → 0 < TaskReq.maxSelectOf f →
            1 ≤ l.length) := by
      intro M hM res hres
      rw [hM]
      subst hres
      by_cases hub : min M f.options.length <
          (if f.required = true ∧ ¬f.options.isEmpty = true then 1 else 0)
      · rw [if_pos hub]
        refine ⟨[], rfl, by simp, by simp, by simp, by simp, fun _ => rfl, ?_⟩
        intro hreq hne hpos
        rw [if_pos ⟨hreq, by simp [isEmpty_false_of_ne_nil _ hne]⟩] at hub
        have : 0 < f.options.length := List.length_pos.mpr hne
        omega
      · rw [if_neg hub]
        have hk := randintP_bounds _ _ r (Nat.le_of_not_lt hub)
        by_cases hkpos : 0 < (randintP
            (if f.required = true ∧ ¬f.options.isEmpty = true then 1 else 0)
            (min M f.options.length) r).1
        · rw [if_pos hkpos]
          have hlenpos : 0 < f.options.length := by omega
          have hopts : f.options.isEmpty = false := by
            cases hoo : f.options with
            | nil => rw [hoo] at hlenpos; exact absurd hlenpos (by simp)
            | cons a t => rfl
          rw [if_pos (show ¬f.options.isEmpty = true by simp [hopts])]
          refine ⟨_, rfl, ?_, ?_, fun hnd => sampleP_nodup _ _ _ hnd,
            sampleP_subset _ _ _, ?_, ?_⟩
          · rw [sampleP_length]; omega
          · rw [sampleP_length]; omega
          · intro he
            rw [he] at hlenpos
            exact absurd hlenpos (by simp)
          · intro _ _ _
            rw [sampleP_length]
            omega
        · rw [if_neg hkpos]
          refine ⟨[], rfl, by simp, by simp, by simp, by simp, fun _ => rfl, ?_⟩
          intro hreq hne hpos
          have hif : (if f.required = true ∧ ¬f.options.isEmpty = true then 1 else 0) = 1 :=
            if_pos ⟨hreq, by simp [isEmpty_false_of_ne_nil _ hne]⟩
          rw [hif] at hk hkpos
          omega
    rcases hf with hf | hf
    · have hM : TaskReq.maxSelectOf f = f.max_select.getD 3 := by
        simp [TaskReq.maxSelectOf, hf]
      refine hbody (f.max_select.getD 3) hM _ ?_
      unfold TaskReq.simulate_field_value
      rw [hf]
      simp only [String.reduceEq, or_self, or_false, false_or, true_or, or_true,
        if_false, if_true]
    · have hM : TaskReq.maxSelectOf f = f.max_select.getD f.options.length := by
        simp [TaskReq.maxSelectOf, hf]
      refine hbody (f.max_select.getD f.options.length) hM _ ?_
      unfold TaskReq.simulate_field_value
      rw [hf]
      simp only [String.reduceEq, or_self, or_false, false_or, true_or, or_true,
        if_false, if_true]

/-- C3 witness for the amended claim: the required `target_platforms`
checkbox (10 options, max 3) and the profile field `q5` at concrete
streams. -/
theorem claim_C3_witness :
    ((Profile.FORM_STRUCTURE.getD 11 Profile.Q0).qtype = "checkbox" ∧
      (Profile.FORM_STRUCTURE.getD 11 Profile.Q0).options ≠ [] ∧
      0 < (Profile.FORM_STRUCTURE.getD 11 Profile.Q0).max_select.getD
        (Profile.FORM_STRUCTURE.getD 11 Profile.Q0).options.length ∧
      ∃ l, (Profile.simulateAnswer (Profile.FORM_STRUCTURE.getD 11 Profile.Q0)
          (rConst 0) (uConst 0)).1 = Value.list l ∧
        1 ≤ l.length ∧
        l.length ≤ (Profile.FORM_STRUCTURE.getD 11 Profile.Q0).max_select.getD
          (Profile.FORM_STRUCTURE.getD 11 Profile.Q0).options.length ∧
        l.length ≤ (Profile.FORM_STRUCTURE.getD 11 Profile.Q0).options.length ∧
        ((Profile.FORM_STRUCTURE.getD 11 Profile.Q0).options.Nodup → l.Nodup) ∧
        ∀ x ∈ l, x ∈ (Profile.FORM_STRUCTURE.getD 11 Profile.Q0).options) ∧
    ((TaskReq.COMMON_REFINEMENT_FIELDS.getD 0 TaskReq.F0).ftype = "tags" ∨
      (TaskReq.COMMON_REFINEMENT_FIELDS.getD 0 TaskReq.F0).ftype = "checkbox") ∧
    ∃ l, (TaskReq.simulate_field_value
        (TaskReq.COMMON_REFINEMENT_FIELDS.getD 0 TaskReq.F0) [] (rConst 0)
        (uConst 0)).1 = Value.list l ∧
      l.length ≤ TaskReq.maxSelectOf (TaskReq.COMMON_REFINEMENT_FIELDS.getD 0 TaskReq.F0) ∧
      l.length ≤ (TaskReq.COMMON_REFINEMENT_FIELDS.getD 0 TaskReq.F0).options.length ∧
      ((TaskReq.COMMON_REFINEMENT_FIELDS.getD 0 TaskReq.F0).options.Nodup → l.Nodup) ∧
      (∀ x ∈ l, x ∈ (TaskReq.COMMON_REFINEMENT_FIELDS.getD 0 TaskReq.F0).options) ∧
      ((TaskReq.COMMON_REFINEMENT_FIELDS.getD 0 TaskReq.F0).options = [] → l = []) ∧
      ((TaskReq.COMMON_REFINEMENT_FIELDS.getD 0 TaskReq.F0).required = true →
        (TaskReq.COMMON_REFINEMENT_FIELDS.getD 0 TaskReq.F0).options ≠ [] →
        0 < TaskReq.maxSelectOf (TaskReq.COMMON_REFINEMENT_FIELDS.getD 0 TaskReq.F0) →
        1 ≤ l.length) := by
  refine ⟨⟨rfl, by decide, by decide,
    claim_C3_multi_choice.1 (Profile.FORM_STRUCTURE.getD 11 Profile.Q0)
      (rConst 0) (uConst 0) rfl (by decide) (by decide)⟩,
    Or.inr rfl,
    claim_C3_multi_choice.2 (TaskReq.COMMON_REFINEMENT_FIELDS.getD 0 TaskReq.F0)
      [] (rConst 0) (uConst 0) (Or.inr rfl)⟩

/-- C1: in every generated record, a field's entry is null exactly when it
was skipped before simulation. For the onboarding generator, entry `i` of
the record is the id of schema question `i` paired with the step result,
and that result is `None` iff the question's condition failed against the
context accumulated when it was reached, or it was optional
(inclusion chance < 1) and the inclusion draw exceeded the chance; a
simulated (shown) field always stores a non-null value. For the
task-request generator, entry `i` of each field loop is the field's id
paired with the step result, which is `None` iff the gate (the
required/optional-draw/reference-image logic) said not to simulate; a
required field's gate is always true. -/
theorem claim_C1_null_iff_skipped :
    (∀ (r : RandState) (u : UuidState) (i : Nat)
      (h : i < Profile.FORM_STRUCTURE.length),
      ((Profile.generate_profile Profile.FORM_STRUCTURE r u).1)[i]? =
        some ((Profile.FORM_STRUCTURE.get ⟨i, h⟩).id,
          (Profile.stepOut (Profile.FORM_STRUCTURE.get ⟨i, h⟩)
            (Profile.reachState Profile.FORM_STRUCTURE r u i).1
            (Profile.reachState Profile.FORM_STRUCTURE r u i).2.1
            (Profile.reachState Profile.FORM_STRUCTURE r u i).2.2).1) ∧
      ((Profile.stepOut (Profile.FORM_STRUCTURE.get ⟨i, h⟩)
          (Profile.reachState Profile.FORM_STRUCTURE r u i).1
          (Profile.reachState Profile.FORM_STRUCTURE r u i).2.1
          (Profile.reachState Profile.FORM_STRUCTURE r u i).2.2).1 = none ↔
        (Profile.evaluate_condition (Profile.FORM_STRUCTURE.get ⟨i, h⟩).condition
            (Profile.reachState Profile.FORM_STRUCTURE r u i).1 = false ∨
          ((Profile.FORM_STRUCTURE.get ⟨i, h⟩).optional_chance < 1 ∧
            (Profile.FORM_STRUCTURE.get ⟨i, h⟩).optional_chance <
              (unitP (Profile.reachState Profile.FORM_STRUCTURE r u i).2.1).1)))) ∧
    (∀ (gate : TaskReq.TField → Ctx → RandState → Bool × RandState)
      (fs : List TaskReq.TField) (cx : Ctx) (r : RandState) (u : UuidState)
      (i : Nat) (h : i < fs.length),
      ((TaskReq.processFields gate fs cx r u).1)[cx.length + i]? =
        some ((fs.get ⟨i, h⟩).id,
          (TaskReq.fieldStep gate (fs.get ⟨i, h⟩)
            (TaskReq.processFields gate (fs.take i) cx r u).1
            (TaskReq.processFields gate (fs.take i) cx r u).2.1
            (TaskReq.processFields gate (fs.take i) cx r u).2.2).1) ∧
      ((TaskReq.fieldStep gate (fs.get ⟨i, h⟩)
          (TaskReq.processFields gate (fs.take i) cx r u).1
          (TaskReq.processFields gate (fs.take i) cx r u).2.1
          (TaskReq.processFields gate (fs.take i) cx r u).2.2).1 = none ↔
        (gate (fs.get ⟨i, h⟩)
          (TaskReq.processFields gate (fs.take i) cx r u).1
          (TaskReq.processFields gate (fs.take i) cx r u).2.1).1 = false)) ∧
    (∀ (f : TaskReq.TField) (cx : Ctx) (r : RandState), f.required = true →
      (TaskReq.taskGate f cx r).1 = true ∧ (TaskReq.refineGate f cx r).1 = true) := by
  refine ⟨?_, ?_, ?_⟩
  · intro r u i h
    exact ⟨Profile.generate_profile_getElem Profile.FORM_STRUCTURE r u i h,
      Profile.stepOut_none_iff _ _ _ _⟩
  · intro gate fs cx r u i h
    exact ⟨TaskReq.processFields_getElem? gate fs cx r u i h,
      TaskReq.fieldStep_none_iff _ _ _ _ _⟩
  · intro f cx r hreq
    constructor
    · unfold TaskReq.taskGate
      rw [if_pos hreq]
    · unfold TaskReq.refineGate
      rw [if_pos hreq]

set_option maxRecDepth 10000 in
set_option maxHeartbeats 1000000 in
/-- C1 witness: at concrete streams, the conditional question `q1a` (whose
`q1 == Other` condition fails) is stored as null, the required refinement
field `target_platforms` is stored non-null, and a required field's gate is
true. -/
theorem claim_C1_witness :
    (1 < Profile.FORM_STRUCTURE.length ∧
      ((Profile.generate_profile Profile.FORM_STRUCTURE (rConst 0) (uConst 0)).1)[1]? =
        some ("q1a", none)) ∧
    (0 < TaskReq.COMMON_REFINEMENT_FIELDS.length ∧
      ((TaskReq.processFields TaskReq.refineGate TaskReq.COMMON_REFINEMENT_FIELDS
          ([] : Ctx) (rConst 0) (uConst 0)).1)[(([] : Ctx)).length + 0]? =
        some ("target_platforms",
          some (Value.list ["Instagram Post (Square 1:1)"]))) ∧
    (TaskReq.sceneDescField.required = true ∧
      (TaskReq.taskGate TaskReq.sceneDescField [] (rConst 0)).1 = true) := by
  refine ⟨⟨by decide, ?_⟩, ⟨by decide, ?_⟩, rfl, ?_⟩
  · have h1 := claim_C1_null_iff_skipped.1 (rConst 0) (uConst 0) 1 (by decide)
    rw [h1.1]
    decide
  · have h2 := claim_C1_null_iff_skipped.2.1 TaskReq.refineGate
      TaskReq.COMMON_REFINEMENT_FIELDS ([] : Ctx) (rConst 0) (uConst 0) 0 (by decide)
    rw [h2.1]
    decide
  · exact (claim_C1_null_iff_skipped.2.2 TaskReq.sceneDescField [] (rConst 0) rfl).1

theorem lookup_append_left_some {β : Type} (l1 l2 : List (String × β))
    (k : String) (v : β) (h : l1.lookup k = some v) :
    (l1 ++ l2).lookup k = some v := by
  rw [lookup_append, h]
  rfl

namespace TaskReq

theorem processFields_nil (gate : TField → Ctx → RandState → Bool × RandState)
    (cx : Ctx) (r : RandState) (u : UuidState) :
    processFields gate [] cx r u = (cx, r, u) := rfl

theorem processFields_append (gate : TField → Ctx → RandState → Bool × RandState)
    (xs ys : List TField) (cx : Ctx) (r : RandState) (u : UuidState) :
    processFields gate (xs ++ ys) cx r u =
      processFields gate ys (processFields gate xs cx r u).1
        (processFields gate xs cx r u).2.1 (processFields gate xs cx r u).2.2 := by
  induction xs generalizing cx r u with
  | nil => rfl
  | cons f fs ih => rw [List.cons_append, processFields_cons, ih, processFields_cons]

theorem processFields_lookup_preserved
    (gate : TField → Ctx → RandState → Bool × RandState)
    (fs : List TField) (cx : Ctx) (r : RandState) (u : UuidState)
    (k : String) (v : Option Value) (hk : cx.lookup k = some v) :
    (processFields gate fs cx r u).1.lookup k = some v := by
  induction fs generalizing cx r u with
  | nil => exact hk
  | cons f fs ih =>
    rw [processFields_cons]
    exact ih _ _ _ (lookup_append_left_some _ _ _ _ hk)

/-- Walking a field list that ends in the `ref_image` / `ref_instructions`
pair: the final context holds some value for `ref_image`, and whenever that
value is null, `ref_instructions` is null as well, because its gate reads
`ref_image` back out of the record before drawing. -/
theorem refPair_lookup (fs pre : List TField) (imgF insF : TField) (cx : Ctx)
    (r : RandState) (u : UuidState)
    (hsplit : fs = pre ++ [imgF, insF])
    (himg1 : imgF.id = "ref_image")
    (hins1 : insF.id = "ref_instructions")
    (hins2 : insF.ftype = "text_area")
    (hins3 : insF.required = false)
    (hpre1 : "ref_image" ∉ cx.map Prod.fst ++ pre.map TField.id)
    (hpre2 : "ref_instructions" ∉ cx.map Prod.fst ++ pre.map TField.id) :
    ∃ v, (processFields taskGate fs cx r u).1.lookup "ref_image" = some v ∧
      (v = none →
        (processFields taskGate fs cx r u).1.lookup "ref_instructions" =
          some none) := by
  subst hsplit
  rw [processFields_append, processFields_cons, processFields_cons]
  have hkeysMid : (processFields taskGate pre cx r u).1.map Prod.fst =
      cx.map Prod.fst ++ pre.map TField.id := processFields_map_fst _ _ _ _ _
  set mid := processFields taskGate pre cx r u with hmid
  set vimg := (fieldStep taskGate imgF mid.1 mid.2.1 mid.2.2).1 with hvimg
  have himgK : (mid.1 ++ [(imgF.id, vimg)]).lookup "ref_image" = some vimg := by
    rw [himg1]
    exact lookup_append_singleton_self _ _ _ (by rw [hkeysMid]; exact hpre1)
  have hinsK : "ref_instructions" ∉ (mid.1 ++ [(imgF.id, vimg)]).map Prod.fst := by
    rw [List.map_append, hkeysMid, himg1]
    intro hmem
    rcases List.mem_append.mp hmem with hmem | hmem
    · exact hpre2 hmem
    · simp at hmem
  refine ⟨vimg, ?_, ?_⟩
  · rw [processFields_nil]
    exact lookup_append_left_some _ _ _ _ himgK
  · intro hvnone
    rw [processFields_nil]
    have hgate : (taskGate insF (mid.1 ++ [(imgF.id, vimg)])
        (fieldStep taskGate imgF mid.1 mid.2.1 mid.2.2).2.1).1 = false := by
      unfold taskGate
      rw [if_neg (by rw [hins3]; exact Bool.false_ne_true)]
      rw [if_neg (by rw [hins2]; simp)]
      rw [if_pos ⟨hins2, hins1⟩]
      rw [himgK, hvnone]
    have hstep : (fieldStep taskGate insF (mid.1 ++ [(imgF.id, vimg)])
        (fieldStep taskGate imgF mid.1 mid.2.1 mid.2.2).2.1
        (fieldStep taskGate imgF mid.1 mid.2.1 mid.2.2).2.2).1 = none :=
      (fieldStep_none_iff _ _ _ _ _).mpr hgate
    rw [hstep, hins1]
    exact lookup_append_singleton_self _ _ _ hinsK

end TaskReq

/-- C10: in every generated task request, `ref_instructions` is null
whenever `ref_image` is null: the instructions gate reads the reference
image back out of the record and refuses to simulate when it is absent. -/
theorem claim_C10_ref_instructions (r : RandState) (u : UuidState)
    (h : ((TaskReq.generate_task_request r u).1).lookup "ref_image" = some none) :
    ((TaskReq.generate_task_request r u).1).lookup "ref_instructions" = some none := by
  have main : ∀ (fs pre : List TaskReq.TField) (imgF insF : TaskReq.TField)
      (r2 : RandState) (u2 : UuidState) (cat : String),
      fs = pre ++ [imgF, insF] →
      imgF.id = "ref_image" → insF.id = "ref_instructions" →
      insF.ftype = "text_area" → insF.required = false →
      "ref_image" ∉ ["task_category"] ++ pre.map TaskReq.TField.id →
      "ref_instructions" ∉ ["task_category"] ++ pre.map TaskReq.TField.id →
      ((TaskReq.processFields TaskReq.refineGate TaskReq.COMMON_REFINEMENT_FIELDS
          (TaskReq.processFields TaskReq.taskGate fs
            [("task_category", some (Value.str cat))] r2 u2).1
          (TaskReq.processFields TaskReq.taskGate fs
            [("task_category", some (Value.str cat))] r2 u2).2.1
          (TaskReq.processFields TaskReq.taskGate fs
            [("task_category", some (Value.str cat))] r2 u2).2.2).1.lookup
        "ref_image" = some none) →
      ((TaskReq.processFields TaskReq.refineGate TaskReq.COMMON_REFINEMENT_FIELDS
          (TaskReq.processFields TaskReq.taskGate fs
            [("task_category", some (Value.str cat))] r2 u2).1
          (TaskReq.processFields TaskReq.taskGate fs
            [("task_category", some (Value.str cat))] r2 u2).2.1
          (TaskReq.processFields TaskReq.taskGate fs
            [("task_category", some (Value.str cat))] r2 u2).2.2).1.lookup
        "ref_instructions" = some none) := by
    intro fs pre imgF insF r2 u2 cat hsplit h1 h2 h3 h4 hp1 hp2 hh
    obtain ⟨v, hv1, hv2⟩ := TaskReq.refPair_lookup fs pre imgF insF
      [("task_category", some (Value.str cat))] r2 u2 hsplit h1 h2 h3 h4
      (by simpa using hp1) (by simpa using hp2)
    have hv1b := TaskReq.processFields_lookup_preserved TaskReq.refineGate
      TaskReq.COMMON_REFINEMENT_FIELDS _
      (TaskReq.processFields TaskReq.taskGate fs
        [("task_category", some (Value.str cat))] r2 u2).2.1
      (TaskReq.processFields TaskReq.taskGate fs
        [("task_category", some (Value.str cat))] r2 u2).2.2
      "ref_image" v hv1
    rw [hv1b] at hh
    obtain rfl : v = none := by simpa using hh
    exact TaskReq.processFields_lookup_preserved TaskReq.refineGate
      TaskReq.COMMON_REFINEMENT_FIELDS _
      (TaskReq.processFields TaskReq.taskGate fs
        [("task_category", some (Value.str cat))] r2 u2).2.1
      (TaskReq.processFields TaskReq.taskGate fs
        [("task_category", some (Value.str cat))] r2 u2).2.2
      "ref_instructions" none (hv2 rfl)
  have h8 : r.d % 8 < 8 := Nat.mod_lt _ (by norm_num)
  have hcases : r.d % 8 = 0 ∨ r.d % 8 = 1 ∨ r.d % 8 = 2 ∨ r.d % 8 = 3 ∨
      r.d % 8 = 4 ∨ r.d % 8 = 5 ∨ r.d % 8 = 6 ∨ r.d % 8 = 7 := by omega
  rcases hcases with hc | hc | hc | hc | hc | hc | hc | hc
  · have hcat : choiceP TaskReq.TASK_CATEGORIES r = ("Product Shot", r.adv) := by
      unfold choiceP choicePD
      rw [show TaskReq.TASK_CATEGORIES.length = 8 from rfl, hc]
      rfl
    revert h
    unfold TaskReq.generate_task_request
    rw [hcat]
    dsimp only
    rw [show TaskReq.TASK_FIELDS.lookup "Product Shot" =
      some TaskReq.productShotFields from rfl]
    exact main TaskReq.productShotFields (TaskReq.productShotFields.take 5)
      (TaskReq.productShotFields.getD 5 TaskReq.F0)
      (TaskReq.productShotFields.getD 6 TaskReq.F0) r.adv u "Product Shot"
      rfl rfl rfl rfl rfl (by decide) (by decide)
  · have hcat : choiceP TaskReq.TASK_CATEGORIES r = ("Menu Display", r.adv) := by
      unfold choiceP choicePD
      rw [show TaskReq.TASK_CATEGORIES.length = 8 from rfl, hc]
      rfl
    revert h
    unfold TaskReq.generate_task_request
    rw [hcat]
    dsimp only
    rw [show TaskReq.TASK_FIELDS.lookup "Menu Display" =
      some TaskReq.menuDisplayFields from rfl]
    exact main TaskReq.menuDisplayFields (TaskReq.menuDisplayFields.take 5)
      (TaskReq.menuDisplayFields.getD 5 TaskReq.F0)
      (TaskReq.menuDisplayFields.getD 6 TaskReq.F0) r.adv u "Menu Display"
      rfl rfl rfl rfl rfl (by decide) (by decide)
  · have hcat : choiceP TaskReq.TASK_CATEGORIES r = ("Lifestyle Shot", r.adv) := by
      unfold choiceP choicePD
      rw [show TaskReq.TASK_CATEGORIES.length = 8 from rfl, hc]
      rfl
    revert h
    unfold TaskReq.generate_task_request
    rw [hcat]
    dsimp only
    rw [show TaskReq.TASK_FIELDS.lookup "Lifestyle Shot" =
      some TaskReq.lifestyleShotFields from rfl]
    exact main TaskReq.lifestyleShotFields (TaskReq.lifestyleShotFields.take 6)
      (TaskReq.lifestyleShotFields.getD 6 TaskReq.F0)
      (TaskReq.lifestyleShotFields.getD 7 TaskReq.F0) r.adv u "Lifestyle Shot"
      rfl rfl rfl rfl rfl (by decide) (by decide)
  · have hcat : choiceP TaskReq.TASK_CATEGORIES r = ("Promotional Graphic", r.adv) := by
      unfold choiceP choicePD
      rw [show TaskReq.TASK_CATEGORIES.length = 8 from rfl, hc]
      rfl
    revert h
    unfold TaskReq.generate_task_request
    rw [hcat]
    dsimp only
    rw [show TaskReq.TASK_FIELDS.lookup "Promotional Graphic" =
      some TaskReq.promotionalGraphicFields from rfl]
    exact main TaskReq.promotionalGraphicFields
      (TaskReq.promotionalGraphicFields.take 7)
      (TaskReq.promotionalGraphicFields.getD 7 TaskReq.F0)
      (TaskReq.promotionalGraphicFields.getD 8 TaskReq.F0) r.adv u
      "Promotional Graphic" rfl rfl rfl rfl rfl (by decide) (by decide)
  · have hcat : choiceP TaskReq.TASK_CATEGORIES r = ("Branding Element", r.adv) := by
      unfold choiceP choicePD
      rw [show TaskReq.TASK_CATEGORIES.length = 8 from rfl, hc]
      rfl
    revert h
    unfold TaskReq.generate_task_request
    rw [hcat]
    dsimp only
    rw [show TaskReq.TASK_FIELDS.lookup "Branding Element" =
      some TaskReq.brandingElementFields from rfl]
    exact main TaskReq.brandingElementFields (TaskReq.brandingElementFields.take 4)
      (TaskReq.brandingElementFields.getD 4 TaskReq.F0)
      (TaskReq.brandingElementFields.getD 5 TaskReq.F0) r.adv u "Branding Element"
      rfl rfl rfl rfl rfl (by decide) (by decide)
  · have hcat : choiceP TaskReq.TASK_CATEGORIES r =
        ("Location/Ambiance Shot", r.adv) := by
      unfold choiceP choicePD
      rw [show TaskReq.TASK_CATEGORIES.length = 8 from rfl, hc]
      rfl
    revert h
    unfold TaskReq.generate_task_request
    rw [hcat]
    dsimp only
    rw [show TaskReq.TASK_FIELDS.lookup "Location/Ambiance Shot" =
      some TaskReq.locationAmbianceFields from rfl]
    exact main TaskReq.locationAmbianceFields (TaskReq.locationAmbianceFields.take 4)
      (TaskReq.locationAmbianceFields.getD 4 TaskReq.F0)
      (TaskReq.locationAmbianceFields.getD 5 TaskReq.F0) r.adv u
      "Location/Ambiance Shot" rfl rfl rfl rfl rfl (by decide) (by decide)
  · have hcat : choiceP TaskReq.TASK_CATEGORIES r = ("Event Promotion", r.adv) := by
      unfold choiceP choicePD
      rw [show TaskReq.TASK_CATEGORIES.length = 8 from rfl, hc]
      rfl
    revert h
    unfold TaskReq.generate_task_request
    rw [hcat]
    dsimp only
    rw [show TaskReq.TASK_FIELDS.lookup "Event Promotion" =
      some TaskReq.eventPromotionFields from rfl]
    exact main TaskReq.eventPromotionFields (TaskReq.eventPromotionFields.take 7)
      (TaskReq.eventPromotionFields.getD 7 TaskReq.F0)
      (TaskReq.eventPromotionFields.getD 8 TaskReq.F0) r.adv u "Event Promotion"
      rfl rfl rfl rfl rfl (by decide) (by decide)
  · have hcat : choiceP TaskReq.TASK_CATEGORIES r = ("Behind-the-Scenes", r.adv) := by
      unfold choiceP choicePD
      rw [show TaskReq.TASK_CATEGORIES.length = 8 from rfl, hc]
      rfl
    revert h
    unfold TaskReq.generate_task_request
    rw [hcat]
    dsimp only
    rw [show TaskReq.TASK_FIELDS.lookup "Behind-the-Scenes" =
      some TaskReq.behindTheScenesFields from rfl]
    exact main TaskReq.behindTheScenesFields (TaskReq.behindTheScenesFields.take 4)
      (TaskReq.behindTheScenesFields.getD 4 TaskReq.F0)
      (TaskReq.behindTheScenesFields.getD 5 TaskReq.F0) r.adv u "Behind-the-Scenes"
      rfl rfl rfl rfl rfl (by decide) (by decide)

set_option maxRecDepth 10000 in
set_option maxHeartbeats 1000000 in
/-- C10 witness: a concrete run in which the reference-image draw fails, so
both `ref_image` and `ref_instructions` are null. -/
theorem claim_C10_witness :
    ((TaskReq.generate_task_request (rConst 500000) (uConst 0)).1).lookup
      "ref_image" = some none ∧
    ((TaskReq.generate_task_request (rConst 500000) (uConst 0)).1).lookup
      "ref_instructions" = some none :=
  ⟨by decide, claim_C10_ref_instructions (rConst 500000) (uConst 0) (by decide)⟩

theorem skelCtx_append (c : Ctx) (e : String × Option Value) :
    skelCtx (c ++ [e]) = skelCtx c ++ [(e.1, e.2.isSome)] := by
  simp [skelCtx]

theorem lookup_map_isSome_of_skel (c c' : Ctx) (k : String)
    (h : skelCtx c = skelCtx c') :
    (c.lookup k).map (fun v => v.isSome) = (c'.lookup k).map (fun v => v.isSome) := by
  induction c generalizing c' with
  | nil =>
    cases c' with
    | nil => rfl
    | cons a t => exact absurd h (by simp [skelCtx])
  | cons a t ih =>
    cases c' with
    | nil => exact absurd h (by simp [skelCtx])
    | cons b t2 =>
      simp only [skelCtx, List.map_cons, List.cons.injEq, Prod.mk.injEq] at h
      obtain ⟨⟨hfst, hsnd⟩, htail⟩ := h
      simp only [List.lookup]
      rw [hfst]
      by_cases hk : k == b.1
      · rw [hk]
        simp [hsnd]
      · simp only [Bool.not_eq_true] at hk
        rw [hk]
        simp only [Bool.false_eq_true, if_false]
        exact ih t2 htail

namespace Profile

theorem simulate_text_input_snd (qid : String) (r : RandState) (u u' : UuidState) :
    (simulate_text_input qid r u).2.1 = (simulate_text_input qid r u').2.1 := by
  unfold simulate_text_input
  by_cases h1 : qid = "q1a"
  · simp [h1]
  · by_cases h2 : qid = "q3"
    · simp [h1, h2]
    · by_cases h3 : qid.endsWith "a" && qid.length = 3 <;> simp [h1, h2, h3]

theorem simulate_text_area_snd (qid : String) (r : RandState) (u u' : UuidState) :
    (simulate_text_area qid r u).2.1 = (simulate_text_area qid r u').2.1 := by
  unfold simulate_text_area
  by_cases hx : (unitP r).1 < mkRat 1 10 <;> simp [hx]

theorem simulate_file_upload_snd (qid : String) (r : RandState) (u u' : UuidState) :
    (simulate_file_upload qid r u).2.1 = (simulate_file_upload qid r u').2.1 := rfl

theorem simulateAnswer_snd (q : Question) (r : RandState) (u u' : UuidState) :
    (simulateAnswer q r u).2.1 = (simulateAnswer q r u').2.1 := by
  unfold simulateAnswer
  dsimp only
  split_ifs <;>
    first
      | rfl
      | exact simulate_text_input_snd q.id r u u'
      | exact simulate_text_area_snd q.id r u u'

theorem simulateAnswer_dropdown_val (q : Question) (r : RandState)
    (u u' : UuidState) (hq : q.qtype = "dropdown") :
    (simulateAnswer q r u).1 = (simulateAnswer q r u').1 := by
  unfold simulateAnswer
  rw [hq]
  by_cases h2 : q.options.isEmpty <;> simp [h2]

theorem evaluate_condition_congr (q : Question) (c c' : Ctx)
    (hok : okQ q = true) (hq1 : c.lookup "q1" = c'.lookup "q1") :
    evaluate_condition q.condition c = evaluate_condition q.condition c' := by
  cases hcond : q.condition with
  | none => rfl
  | some p =>
    obtain ⟨pid, op, v⟩ := p
    have hp : pid = "q1" := by
      unfold okQ at hok
      rw [hcond] at hok
      simp only [Bool.and_eq_true] at hok
      simpa using hok.1
    unfold evaluate_condition
    rw [hp]
    dsimp only
    rw [hq1]

end Profile

namespace Profile

theorem stepOut_skel (q : Question) (c c' : Ctx) (r : RandState)
    (u u' : UuidState) (hok : okQ q = true) (hq1 : c.lookup "q1" = c'.lookup "q1") :
    (stepOut q c r u).1.isSome = (stepOut q c' r u').1.isSome ∧
    (stepOut q c r u).2.1 = (stepOut q c' r u').2.1 ∧
    (q.id = "q1" → (stepOut q c r u).1 = (stepOut q c' r u').1) := by
  have hcond := evaluate_condition_congr q c c' hok hq1
  have hval : q.id = "q1" → ∀ (r2 : RandState),
      (simulateAnswer q r2 u).1 = (simulateAnswer q r2 u').1 := by
    intro hid r2
    have hdq : q.qtype = "dropdown" := by
      unfold okQ at hok
      simp only [Bool.and_eq_true] at hok
      have h2 := hok.2
      rw [hid] at h2
      simp only [bne_self_eq_false, Bool.false_or] at h2
      simpa using h2
    exact simulateAnswer_dropdown_val q r2 u u' hdq
  unfold stepOut
  dsimp only
  rw [← hcond]
  by_cases hc : evaluate_condition q.condition c
  · rw [if_pos hc, if_pos hc]
    by_cases ho : q.optional_chance < 1
    · rw [if_pos ho, if_pos ho]
      by_cases hx : q.optional_chance < (unitP r).1
      · rw [if_pos hx, if_pos hx]
        exact ⟨rfl, rfl, fun _ => rfl⟩
      · rw [if_neg hx, if_neg hx]
        exact ⟨rfl, simulateAnswer_snd q (unitP r).2 u u',
          fun hid => by rw [hval hid (unitP r).2]⟩
    · rw [if_neg ho, if_neg ho]
      exact ⟨rfl, simulateAnswer_snd q r u u', fun hid => by rw [hval hid r]⟩
  · rw [if_neg hc, if_neg hc]
    exact ⟨rfl, rfl, fun _ => rfl⟩

theorem profileAux_skel (qs : List Question) (c c' : Ctx) (r : RandState)
    (u u' : UuidState) (hok : ∀ q ∈ qs, okQ q = true)
    (hskel : skelCtx c = skelCtx c') (hq1 : c.lookup "q1" = c'.lookup "q1") :
    skelCtx (profileAux qs c r u).1 = skelCtx (profileAux qs c' r u').1 ∧
    (profileAux qs c r u).2.1 = (profileAux qs c' r u').2.1 := by
  induction qs generalizing c c' r u u' with
  | nil => exact ⟨hskel, rfl⟩
  | cons q qs ih =>
    have hs := stepOut_skel q c c' r u u' (hok q (List.mem_cons_self q qs)) hq1
    rw [profileAux_cons, profileAux_cons]
    have hsingle : List.lookup "q1" [(q.id, (stepOut q c r u).1)] =
        List.lookup "q1" [(q.id, (stepOut q c' r u').1)] := by
      by_cases hid : q.id = "q1"
      · rw [hs.2.2 hid]
      · simp only [List.lookup]
        have hne : ("q1" == q.id) = false :=
          beq_eq_false_iff_ne.mpr (fun he => hid he.symm)
        rw [hne]
    have hq1b : (c ++ [(q.id, (stepOut q c r u).1)]).lookup "q1" =
        (c' ++ [(q.id, (stepOut q c' r u').1)]).lookup "q1" := by
      rw [lookup_append, lookup_append, hq1, hsingle]
    have hskelb : skelCtx (c ++ [(q.id, (stepOut q c r u).1)]) =
        skelCtx (c' ++ [(q.id, (stepOut q c' r u').1)]) := by
      rw [skelCtx_append, skelCtx_append, hskel, hs.1]
    rw [hs.2.1]
    exact ih _ _ _ _ _ (fun q2 hq2 => hok q2 (List.mem_cons_of_mem q hq2))
      hskelb hq1b

theorem datasetLoop_skel (n : Nat) (r : RandState) (u u' : UuidState) :
    skelDataset (datasetLoop n r u).1 = skelDataset (datasetLoop n r u').1 ∧
    (datasetLoop n r u).2.1 = (datasetLoop n r u').2.1 := by
  induction n generalizing r u u' with
  | zero => exact ⟨rfl, rfl⟩
  | succ n ih =>
    have hp := profileAux_skel FORM_STRUCTURE [] [] r u u' (by decide) rfl rfl
    have hgen1 : skelCtx (generate_profile FORM_STRUCTURE r u).1 =
        skelCtx (generate_profile FORM_STRUCTURE r u').1 := hp.1
    have hgen2 : (generate_profile FORM_STRUCTURE r u).2.1 =
        (generate_profile FORM_STRUCTURE r u').2.1 := hp.2
    constructor
    · show skelDataset ((generate_profile FORM_STRUCTURE r u).1 ::
        (datasetLoop n (generate_profile FORM_STRUCTURE r u).2.1
          (generate_profile FORM_STRUCTURE r u).2.2).1) = _
      unfold skelDataset
      simp only [List.map_cons]
      rw [hgen1, hgen2]
      have := (ih (generate_profile FORM_STRUCTURE r u').2.1
        (generate_profile FORM_STRUCTURE r u).2.2
        (generate_profile FORM_STRUCTURE r u').2.2).1
      unfold skelDataset at this
      rw [this]
      rfl
    · show (datasetLoop n (generate_profile FORM_STRUCTURE r u).2.1
          (generate_profile FORM_STRUCTURE r u).2.2).2.1 = _
      rw [hgen2]
      exact (ih (generate_profile FORM_STRUCTURE r u').2.1
        (generate_profile FORM_STRUCTURE r u).2.2
        (generate_profile FORM_STRUCTURE r u').2.2).2

end Profile

namespace TaskReq

theorem placeholderMap_snd (c c' : Ctx) (r : RandState) :
    (placeholderMap c r).2 = (placeholderMap c' r).2 := rfl

theorem fill_template_snd (ts : List String) (c c' : Ctx) (r : RandState)
    (u u' : UuidState) :
    (fill_template ts c r u).2.1 = (fill_template ts c' r u').2.1 := by
  unfold fill_template
  dsimp only
  by_cases hts : ts.isEmpty
  · simp [hts]
  · simp only [hts, Bool.false_eq_true, if_false]
    have hcondIff : ∀ (cc : Ctx),
        ((extractPlaceholders (choiceP ts r).1).foldl
            (substOnePlaceholder (placeholderMap cc (choiceP ts r).2).1)
            (choiceP ts r).1 = (choiceP ts r).1 ∧
          (extractPlaceholders (choiceP ts r).1).isEmpty = true) ↔
        (extractPlaceholders (choiceP ts r).1).isEmpty = true := by
      intro cc
      constructor
      · exact And.right
      · intro hemp
        refine ⟨?_, hemp⟩
        rw [List.isEmpty_iff.mp hemp]
        rfl
    by_cases hemp : (extractPlaceholders (choiceP ts r).1).isEmpty = true
    · rw [if_pos ((hcondIff c).mpr hemp), if_pos ((hcondIff c').mpr hemp)]
      rw [placeholderMap_snd c c' (choiceP ts r).2]
    · rw [if_neg (fun hcc => hemp ((hcondIff c).mp hcc)),
        if_neg (fun hcc => hemp ((hcondIff c').mp hcc))]
      rw [placeholderMap_snd c c' (choiceP ts r).2]

theorem menuItems_snd (n : Nat) (b : Bool) (r : RandState) (u u' : UuidState) :
    (menuItems n b r u).2.1 = (menuItems n b r u').2.1 := by
  induction n generalizing r u u' with
  | zero => rfl
  | succ n ih =>
    cases b with
    | false => exact ih _ _ _
    | true => exact ih _ _ _

set_option maxHeartbeats 1600000 in
theorem simulate_field_value_snd (f : TField) (c c' : Ctx) (r : RandState)
    (u u' : UuidState) :
    (simulate_field_value f c r u).2.1 = (simulate_field_value f c' r u').2.1 := by
  unfold simulate_field_value
  dsimp only
  by_cases h1 : f.ftype = "text"
  · rw [if_pos h1, if_pos h1]
    by_cases ht : ¬f.templates.isEmpty = true
    · rw [if_pos ht, if_pos ht]
      exact fill_template_snd f.templates c c' r u u'
    · rw [if_neg ht, if_neg ht]
      rcases hsk : f.snippets_key with _ | key <;> rfl
  · rw [if_neg h1, if_neg h1]
    by_cases h2 : f.ftype = "text_area"
    · rw [if_pos h2, if_pos h2]
      rcases hsk : f.snippets_key with _ | key <;> rfl
    · rw [if_neg h2, if_neg h2]
      by_cases h3 : f.ftype = "tags" ∨ f.ftype = "checkbox"
      · rw [if_pos h3, if_pos h3]
        split_ifs <;>
          first
            | rfl
            | (rcases hsk : f.snippets_key with _ | key <;> dsimp only <;>
                first
                  | rfl
                  | (split_ifs <;> rfl))
      · rw [if_neg h3, if_neg h3]
        by_cases h4 : f.ftype = "dropdown" ∨ f.ftype = "dropdown_visual"
        · rw [if_pos h4, if_pos h4]
          split_ifs <;> rfl
        · rw [if_neg h4, if_neg h4]
          by_cases h5 : f.ftype = "dropdown_text"
          · rw [if_pos h5, if_pos h5]
            by_cases ho : ¬f.options.isEmpty = true
            · rw [if_pos ho, if_pos ho]
              by_cases hx : (unitP r).1 < mkRat 7 10
              · rw [if_pos hx, if_pos hx]
              · rw [if_neg hx, if_neg hx]
                by_cases ht : ¬f.templates.isEmpty = true
                · rw [if_pos ht, if_pos ht]
                  exact fill_template_snd f.templates c c' (unitP r).2 u u'
                · rw [if_neg ht, if_neg ht]
            · rw [if_neg ho, if_neg ho]
              by_cases ht : ¬f.templates.isEmpty = true
              · rw [if_pos ht, if_pos ht]
                exact fill_template_snd f.templates c c' r u u'
              · rw [if_neg ht, if_neg ht]
          · rw [if_neg h5, if_neg h5]
            by_cases h6 : f.ftype = "checkbox_bool"
            · rw [if_pos h6, if_pos h6]
            · rw [if_neg h6, if_neg h6]
              by_cases h7 : f.ftype = "structured_list"
              · rw [if_pos h7, if_pos h7]
                exact menuItems_snd _ _ _ u u'
              · rw [if_neg h7, if_neg h7]
                by_cases h8 : f.ftype = "file_upload"
                · rw [if_pos h8, if_pos h8]
                · rw [if_neg h8, if_neg h8]

theorem taskGate_congr (f : TField) (c c' : Ctx) (r : RandState)
    (h : skelCtx c = skelCtx c') : taskGate f c r = taskGate f c' r := by
  unfold taskGate
  by_cases hreq : f.required = true
  · rw [if_pos hreq, if_pos hreq]
  · rw [if_neg hreq, if_neg hreq]
    dsimp only
    by_cases h1 : f.ftype = "file_upload" ∧ f.id = "ref_image"
    · rw [if_pos h1, if_pos h1]
    · rw [if_neg h1, if_neg h1]
      by_cases h2 : f.ftype = "text_area" ∧ f.id = "ref_instructions"
      · rw [if_pos h2, if_pos h2]
        have hm := lookup_map_isSome_of_skel c c' "ref_image" h
        cases hc : c.lookup "ref_image" with
        | none =>
          rw [hc] at hm
          have hc2 : c'.lookup "ref_image" = none := by
            cases hcc : c'.lookup "ref_image"
            · rfl
            · rw [hcc] at hm
              simp at hm
          rw [hc2]
        | some ov =>
          cases ov with
          | none =>
            rw [hc] at hm
            have hc2 : c'.lookup "ref_image" = some none := by
              cases hcc : c'.lookup "ref_image" with
              | none => rw [hcc] at hm; simp at hm
              | some ow =>
                rw [hcc] at hm
                cases ow with
                | none => rfl
                | some w => simp at hm
            rw [hc2]
          | some v =>
            rw [hc] at hm
            obtain ⟨v2, hc2⟩ : ∃ v2, c'.lookup "ref_image" = some (some v2) := by
              cases hcc : c'.lookup "ref_image" with
              | none => rw [hcc] at hm; simp at hm
              | some ow =>
                rw [hcc] at hm
                cases ow with
                | none => simp at hm
                | some w => exact ⟨w, rfl⟩
            rw [hc2]
      · rw [if_neg h2, if_neg h2]

theorem refineGate_congr (f : TField) (c c' : Ctx) (r : RandState) :
    refineGate f c r = refineGate f c' r := rfl

theorem processFields_skel (gate : TField → Ctx → RandState → Bool × RandState)
    (hg : ∀ f c c' r, skelCtx c = skelCtx c' → gate f c r = gate f c' r)
    (fs : List TField) (c c' : Ctx) (r : RandState) (u u' : UuidState)
    (h : skelCtx c = skelCtx c') :
    skelCtx (processFields gate fs c r u).1 =
      skelCtx (processFields gate fs c' r u').1 ∧
    (processFields gate fs c r u).2.1 = (processFields gate fs c' r u').2.1 := by
  induction fs generalizing c c' r u u' with
  | nil => exact ⟨h, rfl⟩
  | cons f fs ih =>
    rw [processFields_cons, processFields_cons]
    have hgf := hg f c c' r h
    have hstep1 : (fieldStep gate f c r u).1.isSome =
        (fieldStep gate f c' r u').1.isSome := by
      unfold fieldStep
      dsimp only
      rw [← hgf]
      by_cases hb : (gate f c r).1 <;> simp [hb]
    have hstep2 : (fieldStep gate f c r u).2.1 =
        (fieldStep gate f c' r u').2.1 := by
      unfold fieldStep
      dsimp only
      rw [← hgf]
      by_cases hb : (gate f c r).1
      · simp only [hb, if_true]
        exact simulate_field_value_snd f c c' (gate f c r).2 u u'
      · simp [hb]
    have hskelb : skelCtx (c ++ [(f.id, (fieldStep gate f c r u).1)]) =
        skelCtx (c' ++ [(f.id, (fieldStep gate f c' r u').1)]) := by
      rw [skelCtx_append, skelCtx_append, h, hstep1]
    rw [hstep2]
    exact ih _ _ _ _ _ hskelb

theorem generate_task_request_skel (r : RandState) (u u' : UuidState) :
    skelCtx (generate_task_request r u).1 = skelCtx (generate_task_request r u').1 ∧
    (generate_task_request r u).2.1 = (generate_task_request r u').2.1 := by
  unfold generate_task_request
  dsimp only
  cases hlk : TASK_FIELDS.lookup (choiceP TASK_CATEGORIES r).1 with
  | none =>
    exact processFields_skel refineGate (fun f c c' r2 _ => refineGate_congr f c c' r2)
      COMMON_REFINEMENT_FIELDS _ _ _ u u' rfl
  | some fs =>
    have h1 := processFields_skel taskGate taskGate_congr fs
      [("task_category", some (Value.str (choiceP TASK_CATEGORIES r).1))]
      [("task_category", some (Value.str (choiceP TASK_CATEGORIES r).1))]
      (choiceP TASK_CATEGORIES r).2 u u' rfl
    have h2 := processFields_skel refineGate
      (fun f c c' r2 _ => refineGate_congr f c c' r2)
      COMMON_REFINEMENT_FIELDS
      (processFields taskGate fs
        [("task_category", some (Value.str (choiceP TASK_CATEGORIES r).1))]
        (choiceP TASK_CATEGORIES r).2 u).1
      (processFields taskGate fs
        [("task_category", some (Value.str (choiceP TASK_CATEGORIES r).1))]
        (choiceP TASK_CATEGORIES r).2 u').1
      (processFields taskGate fs
        [("task_category", some (Value.str (choiceP TASK_CATEGORIES r).1))]
        (choiceP TASK_CATEGORIES r).2 u).2.1
      (processFields taskGate fs
        [("task_category", some (Value.str (choiceP TASK_CATEGORIES r).1))]
        (choiceP TASK_CATEGORIES r).2 u).2.2
      (processFields taskGate fs
        [("task_category", some (Value.str (choiceP TASK_CATEGORIES r).1))]
        (choiceP TASK_CATEGORIES r).2 u').2.2
      h1.1
    dsimp only
    rw [← h1.2]
    exact h2

theorem taskLoop_skel (n : Nat) (r : RandState) (u u' : UuidState) :
    skelDataset (taskLoop n r u).1 = skelDataset (taskLoop n r u').1 ∧
    (taskLoop n r u).2.1 = (taskLoop n r u').2.1 := by
  induction n generalizing r u u' with
  | zero => exact ⟨rfl, rfl⟩
  | succ n ih =>
    have hp := generate_task_request_skel r u u'
    constructor
    · show skelDataset ((generate_task_request r u).1 ::
        (taskLoop n (generate_task_request r u).2.1
          (generate_task_request r u).2.2).1) = _
      unfold skelDataset
      simp only [List.map_cons]
      rw [hp.1, hp.2]
      have := (ih (generate_task_request r u').2.1
        (generate_task_request r u).2.2 (generate_task_request r u').2.2).1
      unfold skelDataset at this
      rw [this]
      rfl
    · show (taskLoop n (generate_task_request r u).2.1
          (generate_task_request r u).2.2).2.1 = _
      rw [hp.2]
      exact (ih (generate_task_request r u').2.1
        (generate_task_request r u).2.2 (generate_task_request r u').2.2).2

end TaskReq

set_option maxRecDepth 10000 in
set_option maxHeartbeats 1000000 in
/-- C8 counterexample: generation is NOT determined by the state of the
process-wide `random` source alone.  Running the profile generator twice from
the identical random-stream state but different OS-entropy streams (the source
of `uuid.uuid4`, which does not draw from the `random` module) yields different
datasets, because uuid hex digits are embedded in several field values
(simulated text such as "Simulated Text <hex6>", guideline suffixes, and
uploaded-file names such as "logo_sim_<hex8>.<ext>"). -/
theorem claim_C8_counterexample :
    (Profile.generate_simulation_dataset 1 (rConst 0) (uConst 0)).1 ≠
    (Profile.generate_simulation_dataset 1 (rConst 0) (uConst 1)).1 := by
  decide

/-- C8 (amended): determinism in the random source holds up to uuid-derived
content.  For every `n` and every initial random-stream state, two runs that
differ only in the OS-entropy stream feeding `uuid.uuid4` produce datasets with
the same record count, the same keys in the same order, the same null/non-null
pattern per key (`skelDataset`), and leave the `random` source in the same
final state - for both the profile generator and the task-request generator.
Full dataset equality requires fixing the uuid stream as well. -/
theorem claim_C8_skeleton_determinism (n : Int) (r : RandState)
    (u u' : UuidState) :
    skelDataset (Profile.generate_simulation_dataset n r u).1 =
      skelDataset (Profile.generate_simulation_dataset n r u').1 ∧
    (Profile.generate_simulation_dataset n r u).2.1 =
      (Profile.generate_simulation_dataset n r u').2.1 ∧
    skelDataset (TaskReq.generate_simulation_dataset n r u).1 =
      skelDataset (TaskReq.generate_simulation_dataset n r u').1 ∧
    (TaskReq.generate_simulation_dataset n r u).2.1 =
      (TaskReq.generate_simulation_dataset n r u').2.1 := by
  unfold Profile.generate_simulation_dataset TaskReq.generate_simulation_dataset
  by_cases h : n < 1
  · rw [if_pos h, if_pos h, if_pos h, if_pos h]
    exact ⟨rfl, rfl, rfl, rfl⟩
  · rw [if_neg h, if_neg h, if_neg h, if_neg h]
    exact ⟨(Profile.datasetLoop_skel n.toNat r u u').1,
      (Profile.datasetLoop_skel n.toNat r u u').2,
      (TaskReq.taskLoop_skel n.toNat r u u').1,
      (TaskReq.taskLoop_skel n.toNat r u u').2⟩
